import Mathlib

/-!
Shallow embedding of the X-HEEP SPI SDK transaction engine
(`sw/device/lib/sdk/spi/spi_sdk.c`) together with the parts of the SPI host
driver interface (`sw/device/lib/drivers/spi_host/spi_host.h`) it consumes.

Modelling conventions:
* C unsigned arithmetic is modelled on `Nat`, with explicit `% 2^w`
  wherever truncation or wrap-around can occur (`uint16_t` clock divisor,
  `uint32_t` subtraction in the command length field).
* Hardware register accesses performed by the SDK are recorded in an
  explicit trace of HAL operations (`hal_op`).  Failed FIFO accesses
  (`spi_write_word` on a full queue, `spi_read_word` on an empty queue)
  perform no register access in the driver and therefore record nothing.
* Caller-supplied callbacks are modelled by presence flags; an invocation
  is recorded as a `cb_call` value carrying the arguments the C code
  passes (the transaction's buffers and lengths).
* Pointers that may be `NULL` (data buffers, the segment array) are
  modelled as `Option`; reading through them yields a default, which only
  happens where the C code would have undefined behaviour.
* The busy-wait loops (`spi_wait_for_ready`, the `wait_for_interrupt`
  loops of the blocking API) terminate only through hardware/interrupt
  progress that is external to the sequential model; `spi_wait_for_ready`
  is recorded as a trace operation, and the post-`launch` wait of the
  blocking calls is a no-op here because interrupt progress is modelled by
  the separate interrupt entry points.
-/

namespace SpiSdk

/-- 2^32: modulus of C `uint32_t` arithmetic. -/
def UINT32_LIMIT : Nat := 4294967296

/-- 2^16: modulus of C `uint16_t` arithmetic. -/
def UINT16_LIMIT : Nat := 65536

/-- C `UINT32_MAX`. -/
def UINT32_MAX : Nat := 4294967295

/-- C `uint32_t` subtraction `a - b` with wrap-around (both below 2^32). -/
def c_sub32 (a b : Nat) : Nat := (a + UINT32_LIMIT - b) % UINT32_LIMIT

/-- `bitfield_read(value, mask, offset)` from `bitfield.h` (header not under
`src/`; the standard X-HEEP bit-field read on a 32-bit register). -/
def bitfield_read (value mask offset : Nat) : Nat := (value >>> offset) &&& mask

/-- `bitfield_write(value, mask, offset, field)` from `bitfield.h`: clear the
field then or-in the masked value (32-bit complement written via xor). -/
def bitfield_write (value mask offset field : Nat) : Nat :=
  (value &&& (UINT32_MAX ^^^ (mask <<< offset))) ||| ((field &&& mask) <<< offset)

/-- `BIT_MASK_1`. -/
def BIT_MASK_1 : Nat := 1

/-! Driver enumerations from `spi_host.h` (in `src/`). -/

def SPI_SPEED_STANDARD : Nat := 0
def SPI_SPEED_DUAL : Nat := 1
def SPI_SPEED_QUAD : Nat := 2

def SPI_DIR_DUMMY : Nat := 0
def SPI_DIR_RX_ONLY : Nat := 1
def SPI_DIR_TX_ONLY : Nat := 2
def SPI_DIR_BIDIR : Nat := 3

/-! Event bits.  `spi_host.h` defines `SPI_EVENT_x = 1 << SPI_HOST_EVENT_ENABLE_x_BIT`;
the bit positions come from the generated `spi_host_regs.h`, which is not under
`src/` (standard OpenTitan SPI host layout: RXFULL 0, TXEMPTY 1, RXWM 2, TXWM 3,
READY 4, IDLE 5).  Only their distinctness matters below. -/

def SPI_EVENT_NONE : Nat := 0
def SPI_EVENT_RXFULL : Nat := 1
def SPI_EVENT_TXEMPTY : Nat := 2
def SPI_EVENT_RXWM : Nat := 4
def SPI_EVENT_TXWM : Nat := 8
def SPI_EVENT_READY : Nat := 16
def SPI_EVENT_IDLE : Nat := 32
def SPI_EVENT_ALL : Nat := 63

/-! Error bits, same provenance (CMDBUSY 0, OVERFLOW 1, UNDERFLOW 2, CMDINVAL 3,
CSIDINVAL 4, ACCESSINVAL 5). -/

def SPI_ERROR_NONE : Nat := 0
def SPI_ERROR_CMDBUSY : Nat := 1
def SPI_ERROR_OVERFLOW : Nat := 2
def SPI_ERROR_UNDERFLOW : Nat := 4
def SPI_ERROR_CMDINVAL : Nat := 8
def SPI_ERROR_CSIDINVAL : Nat := 16
def SPI_ERROR_ACCESSINVAL : Nat := 32
def SPI_ERROR_IRQALL : Nat := 31
def SPI_ERROR_ALL : Nat := 63

/-! Caller-visible result codes.  Modelled from the spec (section 6: result
codes, "combinable by bitwise OR"): `spi_sdk.h` is not under `src/`, so the
codes are given distinct bits here. -/

def SPI_CODE_OK : Nat := 0
def SPI_CODE_IDX_INVAL : Nat := 1
def SPI_CODE_NOT_INIT : Nat := 2
def SPI_CODE_SLAVE_CSID_INVAL : Nat := 4
def SPI_CODE_SLAVE_FREQ_INVAL : Nat := 8
def SPI_CODE_SLAVE_INVAL : Nat := 16
def SPI_CODE_IS_BUSY : Nat := 32
def SPI_CODE_NOT_IDLE : Nat := 64
def SPI_CODE_TXN_LEN_INVAL : Nat := 128
def SPI_CODE_SEGMENT_INVAL : Nat := 256

/-- `SPI_HOST_COMMAND_LEN_MASK`: 24-bit command length field (spec section 6). -/
def SPI_HOST_COMMAND_LEN_MASK : Nat := 16777215

/-- `MAX_COMMAND_LENGTH` from `spi_sdk.c`. -/
def MAX_COMMAND_LENGTH : Nat := SPI_HOST_COMMAND_LEN_MASK

/-- `SPI_HOST_PARAM_NUM_C_S`: number of chip selects; the driver in `src/`
has exactly the CONFIGOPTS0/CONFIGOPTS1 registers, so 2. -/
def SPI_HOST_PARAM_NUM_C_S : Nat := 2

/-- `BYTES_PER_WORD` from `spi_sdk.c`. -/
def BYTES_PER_WORD : Nat := 4

/-- `LEN_WORDS(bytes)` from `spi_sdk.c`: byte count rounded up to words. -/
def LEN_WORDS (bytes : Nat) : Nat :=
  bytes / BYTES_PER_WORD + (if bytes % BYTES_PER_WORD ≠ 0 then 1 else 0)

/-- `SPI_INVALID_LEN(len)` from `spi_sdk.c`. -/
def SPI_INVALID_LEN (len : Nat) : Bool := len == 0 || len > MAX_COMMAND_LENGTH

/-- `SPI_CSID_INVALID(csid)` from `spi_host.h`. -/
def SPI_CSID_INVALID (csid : Nat) : Bool := csid ≥ SPI_HOST_PARAM_NUM_C_S

/-- `SPI_IDX_INVALID(idx)`.  Modelled from the spec (section 3: controller
index "bounded by the number of physical instances"; the registry in
`spi_sdk.c` has the three entries flash, host1, host2): valid indices are
0, 1, 2. -/
def SPI_IDX_INVALID (idx : Nat) : Bool := idx > 2

/-- Registry indices of the three controllers, in the order of the
`_peripherals` table in `spi_sdk.c` (`spi_idx_e` lives in the missing
`spi_sdk.h`; modelled from the spec's fixed table of three controllers). -/
def SPI_IDX_FLASH : Nat := 0
def SPI_IDX_HOST : Nat := 1
def SPI_IDX_HOST_2 : Nat := 2

/-- `SPI_MIN_FREQ` from `spi_sdk.c`: `SYS_FREQ / (2 * 65535 + 2)`. -/
def SPI_MIN_FREQ (sys_freq : Nat) : Nat := sys_freq / 131072

/-! ## Data model -/

/-- `spi_segment_t` (from the missing `spi_sdk.h`; field layout per spec
section 6: a mode nibble with bits[0:1] = direction, bits[2:3] = speed, and a
byte length). -/
structure spi_segment_t where
  mode : Nat
  len : Nat
  deriving DecidableEq, Repr

/-- Default segment used where the C code would read through an invalid
pointer or out of bounds (undefined behaviour territory). -/
def dfl_segment : spi_segment_t := { mode := 0, len := 0 }

/-- `spi_transaction_t` from `spi_sdk.c`.  The `segments` pointer and the data
buffers may be `NULL` (`none`); a present buffer carries the pointed-to words.
`seglen` is kept separate from the list, as in the C pointer + length pair. -/
structure spi_transaction_t where
  segments : Option (List spi_segment_t)
  seglen : Nat
  txbuffer : Option (List Nat)
  txlen : Nat
  rxbuffer : Option (List Nat)
  rxlen : Nat
  deriving DecidableEq, Repr

/-- The `(spi_transaction_t) {0}` empty transaction. -/
def empty_txn : spi_transaction_t :=
  { segments := none, seglen := 0, txbuffer := none, txlen := 0,
    rxbuffer := none, rxlen := 0 }

/-- `txn.segments[i]` (defaulting where C would be undefined). -/
def txn_seg (txn : spi_transaction_t) (i : Nat) : spi_segment_t :=
  (txn.segments.getD []).getD i dfl_segment

/-- `spi_callbacks_t` (missing `spi_sdk.h`; modelled from the spec, section 3:
four optional hooks).  Each flag records whether the hook is non-`NULL`. -/
structure spi_callbacks_t where
  done_cb : Bool
  txwm_cb : Bool
  rxwm_cb : Bool
  error_cb : Bool
  deriving DecidableEq, Repr

/-- `NULL_CALLBACKS` from `spi_sdk.c`. -/
def NULL_CALLBACKS : spi_callbacks_t :=
  { done_cb := false, txwm_cb := false, rxwm_cb := false, error_cb := false }

/-- `spi_state_e` (missing `spi_sdk.h`; constructors modelled from the states
used by `spi_sdk.c` and the spec's section 4.3 lifecycle). -/
inductive spi_state_e where
  | NONE
  | INIT
  | BUSY
  | DONE
  | ERROR
  | ARG_INVAL
  deriving DecidableEq, Repr

/-- `spi_slave_t` (missing `spi_sdk.h`; fields modelled from the spec section
3 SlaveConfig and their uses in `spi_sdk.c`). -/
structure spi_slave_t where
  csid : Nat
  freq : Nat
  data_mode : Nat
  csn_idle : Nat
  csn_lead : Nat
  csn_trail : Nat
  full_cycle : Bool
  deriving DecidableEq, Repr

/-- The `(spi_slave_t) {0}` zero slave. -/
def zero_slave : spi_slave_t :=
  { csid := 0, freq := 0, data_mode := 0, csn_idle := 0, csn_lead := 0,
    csn_trail := 0, full_cycle := false }

/-- `spi_t` (missing `spi_sdk.h`; modelled from the spec section 3
LogicalHandle and its uses in `spi_sdk.c`). -/
structure spi_t where
  idx : Nat
  init : Bool
  slave : spi_slave_t
  deriving DecidableEq, Repr

/-- Hardware parameters of one controller: the generated
`SPI_HOST_PARAM_TX_DEPTH` / `SPI_HOST_PARAM_RX_DEPTH` FIFO depths (the
generated registers header is not under `src/`, so the depths are kept
abstract). -/
structure hw_params where
  txDepth : Nat
  rxDepth : Nat
  deriving DecidableEq, Repr

/-- `TX_WATERMARK` from `spi_sdk.c`: `SPI_HOST_PARAM_TX_DEPTH / 4`. -/
def TX_WATERMARK (P : hw_params) : Nat := P.txDepth / 4

/-- `RX_WATERMARK` from `spi_sdk.c`: `SPI_HOST_PARAM_RX_DEPTH - 12`. -/
def RX_WATERMARK (P : hw_params) : Nat := P.rxDepth - 12

/-- Observable hardware state of one controller, as far as the SDK's control
flow depends on it: the TX FIFO fill level (gates `spi_write_word`), the
readable RX FIFO contents (gates and feeds `spi_read_word`) and the `active`
status bit (read by `spi_set_slave`). -/
structure spi_hw_t where
  txqd : Nat
  rxfifo : List Nat
  active : Bool
  deriving DecidableEq, Repr

/-- One recorded HAL interaction.  Constructors mirror the driver calls made
by `spi_sdk.c`; `intr_global_mask` stands for a CPU-level interrupt
enable/disable (e.g. a CSR write from `hart.h`) — no SDK function emits it,
which is exactly what the atomicity analysis below is about. -/
inductive hal_op where
  | set_enable (b : Bool)
  | output_enable (b : Bool)
  | set_errors_enabled (mask : Nat) (b : Bool)
  | set_tx_watermark (n : Nat)
  | set_rx_watermark (n : Nat)
  | write_word (w : Nat)
  | read_word
  | set_events_enabled (mask : Nat) (b : Bool)
  | enable_evt_intr (b : Bool)
  | wait_ready
  | set_command (cmd : Nat)
  | set_configopts (csid : Nat) (conf : Nat)
  | set_csid (csid : Nat)
  | sw_reset
  | intr_global_mask (b : Bool)
  deriving DecidableEq, Repr

/-- Which kind of callback was invoked. -/
inductive cb_kind where
  | done
  | txwm
  | rxwm
  | error
  deriving DecidableEq, Repr

/-- A recorded callback invocation with the arguments the C code passes:
`cb(txn.txbuffer, txn.txlen, txn.rxbuffer, txn.rxlen)`. -/
structure cb_call where
  kind : cb_kind
  txbuffer : Option (List Nat)
  txlen : Nat
  rxbuffer : Option (List Nat)
  rxlen : Nat
  deriving DecidableEq, Repr

/-- Build the `cb_call` record for a given transaction. -/
def mk_cb (k : cb_kind) (txn : spi_transaction_t) : cb_call :=
  { kind := k, txbuffer := txn.txbuffer, txlen := txn.txlen,
    rxbuffer := txn.rxbuffer, rxlen := txn.rxlen }

/-- `spi_peripheral_t` from `spi_sdk.c` (one registry slot), with the
modelled hardware state of its `instance` inlined. -/
structure spi_peripheral_t where
  hw : spi_hw_t
  state : spi_state_e
  txn : spi_transaction_t
  scnt : Nat
  wcnt : Nat
  rcnt : Nat
  callbacks : spi_callbacks_t
  deriving DecidableEq, Repr

/-- A fresh registry slot as initialized in the `_peripherals` table. -/
def fresh_peri (hw : spi_hw_t) : spi_peripheral_t :=
  { hw := hw, state := spi_state_e.NONE, txn := empty_txn, scnt := 0,
    wcnt := 0, rcnt := 0, callbacks := NULL_CALLBACKS }

/-- The `_peripherals` registry: one slot per physical controller
(flash, host1, host2). -/
structure spi_registry_t where
  flash : spi_peripheral_t
  host : spi_peripheral_t
  host2 : spi_peripheral_t
  deriving DecidableEq, Repr

/-- `_peripherals[idx]` (all callers guard `idx` with `SPI_IDX_INVALID`). -/
def peri_get (regs : spi_registry_t) (idx : Nat) : spi_peripheral_t :=
  if idx = 0 then regs.flash else if idx = 1 then regs.host else regs.host2

/-- Write back `_peripherals[idx]`. -/
def peri_set (regs : spi_registry_t) (idx : Nat) (p : spi_peripheral_t) :
    spi_registry_t :=
  if idx = 0 then { regs with flash := p }
  else if idx = 1 then { regs with host := p }
  else { regs with host2 := p }

/-! ## Driver-layer pure functions (`spi_host.h`, in `src/`) -/

/-- `spi_validate_cmd` from `spi_host.h`: bidirectional only at standard
speed, and no speed beyond quad. -/
def spi_validate_cmd (direction speed : Nat) : Bool :=
  if speed > SPI_SPEED_QUAD ∨ (direction = SPI_DIR_BIDIR ∧ speed ≠ SPI_SPEED_STANDARD)
  then false else true

/-- `spi_command_t` from `spi_host.h`. -/
structure spi_command_t where
  len : Nat
  csaat : Bool
  speed : Nat
  direction : Nat
  deriving DecidableEq, Repr

/-- Command register field layout (generated `spi_host_regs.h`, not under
`src/`; spec section 6: length-minus-one 24 bits, then csaat 1 bit, speed
2 bits, direction 2 bits). -/
def SPI_HOST_COMMAND_LEN_OFFSET : Nat := 0
def SPI_HOST_COMMAND_CSAAT_BIT : Nat := 24
def SPI_HOST_COMMAND_SPEED_MASK : Nat := 3
def SPI_HOST_COMMAND_SPEED_OFFSET : Nat := 25
def SPI_HOST_COMMAND_DIRECTION_MASK : Nat := 3
def SPI_HOST_COMMAND_DIRECTION_OFFSET : Nat := 27

/-- `spi_create_command` from `spi_host.h`. -/
def spi_create_command (command : spi_command_t) : Nat :=
  bitfield_write
    (bitfield_write
      (bitfield_write
        (bitfield_write 0 SPI_HOST_COMMAND_LEN_MASK SPI_HOST_COMMAND_LEN_OFFSET command.len)
        BIT_MASK_1 SPI_HOST_COMMAND_CSAAT_BIT (if command.csaat then 1 else 0))
      SPI_HOST_COMMAND_SPEED_MASK SPI_HOST_COMMAND_SPEED_OFFSET command.speed)
    SPI_HOST_COMMAND_DIRECTION_MASK SPI_HOST_COMMAND_DIRECTION_OFFSET command.direction

/-- `spi_configopts_t` from `spi_host.h` (single-bit booleans kept as 0/1
naturals, as produced by `bitfield_read`). -/
structure spi_configopts_t where
  clkdiv : Nat
  csnidle : Nat
  csntrail : Nat
  csnlead : Nat
  fullcyc : Nat
  cpha : Nat
  cpol : Nat
  deriving DecidableEq, Repr

/-- CONFIGOPTS register field layout (generated header, not under `src/`;
standard OpenTitan SPI host layout). -/
def SPI_HOST_CONFIGOPTS_0_CLKDIV_0_MASK : Nat := 65535
def SPI_HOST_CONFIGOPTS_0_CLKDIV_0_OFFSET : Nat := 0
def SPI_HOST_CONFIGOPTS_0_CSNIDLE_0_MASK : Nat := 15
def SPI_HOST_CONFIGOPTS_0_CSNIDLE_0_OFFSET : Nat := 16
def SPI_HOST_CONFIGOPTS_0_CSNTRAIL_0_MASK : Nat := 15
def SPI_HOST_CONFIGOPTS_0_CSNTRAIL_0_OFFSET : Nat := 20
def SPI_HOST_CONFIGOPTS_0_CSNLEAD_0_MASK : Nat := 15
def SPI_HOST_CONFIGOPTS_0_CSNLEAD_0_OFFSET : Nat := 24
def SPI_HOST_CONFIGOPTS_0_FULLCYC_0_BIT : Nat := 29
def SPI_HOST_CONFIGOPTS_0_CPHA_0_BIT : Nat := 30
def SPI_HOST_CONFIGOPTS_0_CPOL_0_BIT : Nat := 31

/-- `spi_create_configopts` from `spi_host.h`. -/
def spi_create_configopts (configopts : spi_configopts_t) : Nat :=
  bitfield_write
    (bitfield_write
      (bitfield_write
        (bitfield_write
          (bitfield_write
            (bitfield_write
              (bitfield_write 0 SPI_HOST_CONFIGOPTS_0_CLKDIV_0_MASK
                SPI_HOST_CONFIGOPTS_0_CLKDIV_0_OFFSET configopts.clkdiv)
              SPI_HOST_CONFIGOPTS_0_CSNIDLE_0_MASK
              SPI_HOST_CONFIGOPTS_0_CSNIDLE_0_OFFSET configopts.csnidle)
            SPI_HOST_CONFIGOPTS_0_CSNTRAIL_0_MASK
            SPI_HOST_CONFIGOPTS_0_CSNTRAIL_0_OFFSET configopts.csntrail)
          SPI_HOST_CONFIGOPTS_0_CSNLEAD_0_MASK
          SPI_HOST_CONFIGOPTS_0_CSNLEAD_0_OFFSET configopts.csnlead)
        BIT_MASK_1 SPI_HOST_CONFIGOPTS_0_FULLCYC_0_BIT configopts.fullcyc)
      BIT_MASK_1 SPI_HOST_CONFIGOPTS_0_CPHA_0_BIT configopts.cpha)
    BIT_MASK_1 SPI_HOST_CONFIGOPTS_0_CPOL_0_BIT configopts.cpol

/-! ## Segment validator -/

/-- The loop of `spi_validate_segments` from `spi_sdk.c`, with the running
`*tx_count` / `*rx_count` accumulators made explicit.  Returns
`(valid?, tx_count, rx_count)`. -/
def spi_validate_segments_go :
    List spi_segment_t → Nat → Nat → Bool × Nat × Nat
  | [], tx_count, rx_count => (true, tx_count, rx_count)
  | seg :: rest, tx_count, rx_count =>
    let direction := bitfield_read seg.mode 3 0
    let speed := bitfield_read seg.mode 3 2
    if spi_validate_cmd direction speed then
      let word_len := LEN_WORDS seg.len
      let tx_count :=
        if direction = SPI_DIR_TX_ONLY ∨ direction = SPI_DIR_BIDIR
        then tx_count + word_len else tx_count
      let rx_count :=
        if direction = SPI_DIR_RX_ONLY ∨ direction = SPI_DIR_BIDIR
        then rx_count + word_len else rx_count
      spi_validate_segments_go rest tx_count rx_count
    else (false, tx_count, rx_count)

/-- `spi_validate_segments(segments, segments_len, &tx, &rx)` from
`spi_sdk.c`; the segment array is a list, the two counters start at 0. -/
def spi_validate_segments (segments : List spi_segment_t) : Bool × Nat × Nat :=
  spi_validate_segments_go segments 0 0

/-! ## FIFO pump -/

/-- The `while` loop of `spi_fill_tx`:
`while (wcnt < txlen && !spi_write_word(inst, buf[wcnt])) wcnt++;`.
`spi_write_word` (driver, in `src/`) succeeds iff the TX queue depth is below
`SPI_HOST_PARAM_TX_DEPTH`, in which case it writes the data register (recorded
in the trace) and the fill level grows; on a full queue it touches no
register and the loop stops.  The structural `fuel` argument is called with
`txlen - wcnt`, an upper bound on the number of iterations, so it never runs
out before the loop guard fails.  Returns the hardware state, the final
`wcnt` and the trace. -/
def spi_fill_tx_loop (P : hw_params) (buf : List Nat) (txlen : Nat) :
    Nat → spi_hw_t → Nat → spi_hw_t × Nat × List hal_op
  | 0, hw, wcnt => (hw, wcnt, [])
  | fuel + 1, hw, wcnt =>
    if wcnt < txlen then
      if hw.txqd < P.txDepth then
        let r := spi_fill_tx_loop P buf txlen fuel
          { hw with txqd := hw.txqd + 1 } (wcnt + 1)
        (r.1, r.2.1, hal_op.write_word (buf.getD wcnt 0) :: r.2.2)
      else (hw, wcnt, [])
    else (hw, wcnt, [])

/-- `spi_fill_tx` from `spi_sdk.c`: runs the fill loop when the TX buffer is
non-`NULL` and words remain. -/
def spi_fill_tx (P : hw_params) (peri : spi_peripheral_t) :
    spi_peripheral_t × List hal_op :=
  match peri.txn.txbuffer with
  | none => (peri, [])
  | some buf =>
    if peri.wcnt < peri.txn.txlen then
      let r := spi_fill_tx_loop P buf peri.txn.txlen
        (peri.txn.txlen - peri.wcnt) peri.hw peri.wcnt
      ({ peri with hw := r.1, wcnt := r.2.1 }, r.2.2)
    else (peri, [])

/-- The `while` loop of `spi_empty_rx`:
`while (rcnt < rxlen && !spi_read_word(inst, &buf[rcnt])) rcnt++;`.
`spi_read_word` (driver, in `src/`) succeeds iff the RX queue is non-empty,
popping one word into `buf[rcnt]`; on an empty queue it stops the loop.
Structural recursion on the RX FIFO contents.  Returns the updated buffer
contents, the remaining FIFO, the final `rcnt` and the trace. -/
def spi_empty_rx_loop (rxlen : Nat) :
    List Nat → List Nat → Nat → List Nat × List Nat × Nat × List hal_op
  | buf, fifo, rcnt =>
    if rcnt < rxlen then
      match fifo with
      | [] => (buf, [], rcnt, [])
      | w :: rest =>
        let r := spi_empty_rx_loop rxlen (buf.set rcnt w) rest (rcnt + 1)
        (r.1, r.2.1, r.2.2.1, hal_op.read_word :: r.2.2.2)
    else (buf, fifo, rcnt, [])

/-- `spi_empty_rx` from `spi_sdk.c`. -/
def spi_empty_rx (peri : spi_peripheral_t) : spi_peripheral_t × List hal_op :=
  match peri.txn.rxbuffer with
  | none => (peri, [])
  | some buf =>
    if peri.rcnt < peri.txn.rxlen then
      let r := spi_empty_rx_loop peri.txn.rxlen buf peri.hw.rxfifo peri.rcnt
      ({ peri with
          txn := { peri.txn with rxbuffer := some r.1 },
          hw := { peri.hw with rxfifo := r.2.1 },
          rcnt := r.2.2.1 }, r.2.2.2)
    else (peri, [])

/-! ## Launcher and terminal handlers -/

/-- `spi_issue_cmd` from `spi_sdk.c`: pack the segment into a command word
(`spi_create_command`) and hand it to `spi_set_command`.  The SDK ignores the
driver's return flag, so only the HAL call is recorded. -/
def spi_issue_cmd (seg : spi_segment_t) (csaat : Bool) : List hal_op :=
  [hal_op.set_command (spi_create_command
    { len := c_sub32 seg.len 1,
      csaat := csaat,
      speed := bitfield_read seg.mode 3 2,
      direction := bitfield_read seg.mode 3 0 })]

/-- `spi_reset_peri` from `spi_sdk.c`. -/
def spi_reset_peri (peri : spi_peripheral_t) : spi_peripheral_t :=
  { peri with
    scnt := 0, wcnt := 0, rcnt := 0, txn := empty_txn,
    callbacks := NULL_CALLBACKS }

/-- `spi_launch` from `spi_sdk.c`.  In source order: set state/transaction/
callbacks, program both watermarks, one non-blocking TX fill pass, enable the
four events and the event interrupt line, busy-wait for `ready`
(`spi_wait_for_ready`, recorded as a trace operation), increment the segment
counter and issue segment 0 with `csaat = 0 < seglen - 1` (C integer
arithmetic on the promoted `uint8_t`; for `seglen = 0` the comparison is
`0 < -1`, false, matching truncated `Nat` subtraction). -/
def spi_launch (P : hw_params) (peri : spi_peripheral_t)
    (txn : spi_transaction_t) (callbacks : spi_callbacks_t) :
    spi_peripheral_t × List hal_op :=
  let p1 : spi_peripheral_t :=
    { peri with state := spi_state_e.BUSY, txn := txn, callbacks := callbacks }
  let fr := spi_fill_tx P p1
  ({ fr.1 with scnt := fr.1.scnt + 1 },
    hal_op.set_tx_watermark (TX_WATERMARK P) ::
    hal_op.set_rx_watermark (RX_WATERMARK P) ::
    (fr.2 ++
      [hal_op.set_events_enabled
        (SPI_EVENT_IDLE ||| SPI_EVENT_READY ||| SPI_EVENT_TXWM ||| SPI_EVENT_RXWM) true,
       hal_op.enable_evt_intr true,
       hal_op.wait_ready] ++
      spi_issue_cmd (txn_seg txn 0) (decide (0 < txn.seglen - 1))))

/-- The tail of `spi_event_handler` (the two independent watermark blocks
that follow the `SPI_EVENT_READY` block when it does not return early). -/
def spi_event_wm (P : hw_params) (peri : spi_peripheral_t) (events : Nat) :
    spi_peripheral_t × List hal_op × List cb_call :=
  let r1 :=
    if events &&& SPI_EVENT_TXWM ≠ 0 then
      let f := spi_fill_tx P peri
      (f.1, f.2,
        if f.1.callbacks.txwm_cb then [mk_cb cb_kind.txwm f.1.txn] else [])
    else (peri, [], [])
  let r2 :=
    if events &&& SPI_EVENT_RXWM ≠ 0 then
      let e := spi_empty_rx r1.1
      (e.1, e.2,
        if e.1.callbacks.rxwm_cb then [mk_cb cb_kind.rxwm e.1.txn] else [])
    else (r1.1, [], [])
  (r2.1, r1.2.1 ++ r2.2.1, r1.2.2 ++ r2.2.2)

/-- The completion branch of `spi_event_handler` (`Ready` with no segment
left and `Idle` set): disable all events and the event interrupt, final RX
drain, transition to `DONE`, completion callback, reset — then `return`
(the watermark blocks are *not* executed on this path). -/
def spi_event_complete (peri : spi_peripheral_t) :
    spi_peripheral_t × List hal_op × List cb_call :=
  let e := spi_empty_rx peri
  let p := { e.1 with state := spi_state_e.DONE }
  (spi_reset_peri p,
    hal_op.set_events_enabled SPI_EVENT_ALL false ::
      hal_op.enable_evt_intr false :: e.2,
    if p.callbacks.done_cb then [mk_cb cb_kind.done p.txn] else [])

/-- `spi_event_handler` from `spi_sdk.c`.  Returns the updated slot, the HAL
trace and the recorded callback invocations. -/
def spi_event_handler (P : hw_params) (peri : spi_peripheral_t) (events : Nat) :
    spi_peripheral_t × List hal_op × List cb_call :=
  if events &&& SPI_EVENT_READY ≠ 0 then
    if peri.txn.segments.isSome ∧ peri.scnt < peri.txn.seglen then
      let tr0 := spi_issue_cmd (txn_seg peri.txn peri.scnt)
        (decide (peri.scnt < peri.txn.seglen - 1))
      let r := spi_event_wm P { peri with scnt := peri.scnt + 1 } events
      (r.1, tr0 ++ r.2.1, r.2.2)
    else if events &&& SPI_EVENT_IDLE ≠ 0 then
      spi_event_complete peri
    else
      spi_event_wm P peri events
  else
    spi_event_wm P peri events

/-- `spi_error_handler` from `spi_sdk.c`: unconditionally disable all events
and the event interrupt, transition to `ERROR`, error callback with the
transaction's buffers, reset the slot. -/
def spi_error_handler (peri : spi_peripheral_t) (_error : Nat) :
    spi_peripheral_t × List hal_op × List cb_call :=
  let p := { peri with state := spi_state_e.ERROR }
  (spi_reset_peri p,
    [hal_op.set_events_enabled SPI_EVENT_ALL false,
     hal_op.enable_evt_intr false],
    if p.callbacks.error_cb then [mk_cb cb_kind.error p.txn] else [])

/-! ## Slave configurator and handle validation -/

/-- The clock divisor computation, inlined identically in `spi_set_slave` and
`spi_true_slave_freq` in `spi_sdk.c`:
`uint16_t clk_div = 0; if (freq < SYS_FREQ / 2) { clk_div = (SYS_FREQ / freq - 2) / 2; if (SYS_FREQ / (2 * clk_div + 2) > freq) clk_div++; }`.
The assignment to the `uint16_t` truncates mod 2^16, and the `clk_div++` can
wrap; both are modelled explicitly. -/
def spi_clk_div (sys_freq freq : Nat) : Nat :=
  if freq < sys_freq / 2 then
    let d := (c_sub32 (sys_freq / freq) 2 / 2) % UINT16_LIMIT
    if sys_freq / (2 * d + 2) > freq then (d + 1) % UINT16_LIMIT else d
  else 0

/-- `spi_true_slave_freq` from `spi_sdk.c`. -/
def spi_true_slave_freq (sys_freq freq : Nat) : Nat :=
  sys_freq / (2 * spi_clk_div sys_freq freq + 2)

/-- `spi_validate_slave` from `spi_sdk.c`: or-combines `SLAVE_CSID_INVAL`
when the chip select is out of range and `SLAVE_FREQ_INVAL` when the
requested frequency is below `SPI_MIN_FREQ`. -/
def spi_validate_slave (sys_freq : Nat) (slave : spi_slave_t) : Nat :=
  (if SPI_CSID_INVALID slave.csid then SPI_CODE_SLAVE_CSID_INVAL else 0) |||
  (if slave.freq < SPI_MIN_FREQ sys_freq then SPI_CODE_SLAVE_FREQ_INVAL else 0)

/-- `spi_check_valid` from `spi_sdk.c`. -/
def spi_check_valid (spi : spi_t) : Nat :=
  if SPI_IDX_INVALID spi.idx then SPI_CODE_IDX_INVAL
  else if ¬spi.init then SPI_CODE_NOT_INIT
  else SPI_CODE_OK

/-- `spi_set_slave` from `spi_sdk.c`: abort with `NOT_IDLE` if the controller
is actively processing a command; otherwise compute the divisor, pack the
configuration word, write it via `spi_set_configopts` (the driver in `src/`
accepts csid 0/1 and rejects anything else without writing) and select the
chip via `spi_set_csid` (whose return value the SDK ignores).  Returns the
result code and the trace. -/
def spi_set_slave (sys_freq : Nat) (regs : spi_registry_t) (spi : spi_t) :
    Nat × List hal_op :=
  if (peri_get regs spi.idx).hw.active then (SPI_CODE_NOT_IDLE, [])
  else
    let config : spi_configopts_t :=
      { clkdiv := spi_clk_div sys_freq spi.slave.freq,
        cpha := bitfield_read spi.slave.data_mode BIT_MASK_1 0,
        cpol := bitfield_read spi.slave.data_mode BIT_MASK_1 1,
        csnidle := spi.slave.csn_idle,
        csnlead := spi.slave.csn_lead,
        csntrail := spi.slave.csn_trail,
        fullcyc := if spi.slave.full_cycle then 1 else 0 }
    if spi.slave.csid < SPI_HOST_PARAM_NUM_C_S then
      (SPI_CODE_OK,
        [hal_op.set_configopts spi.slave.csid (spi_create_configopts config),
         hal_op.set_csid spi.slave.csid])
    else (SPI_CODE_SLAVE_INVAL, [])

/-- `spi_prepare_transfer` from `spi_sdk.c`: handle validation, busy check,
then slave configuration. -/
def spi_prepare_transfer (sys_freq : Nat) (regs : spi_registry_t) (spi : spi_t) :
    Nat × List hal_op :=
  let error := spi_check_valid spi
  if error ≠ 0 then (error, [])
  else if (peri_get regs spi.idx).state = spi_state_e.BUSY then
    (SPI_CODE_IS_BUSY, [])
  else
    let r := spi_set_slave sys_freq regs spi
    if r.1 ≠ 0 then r else (SPI_CODE_OK, r.2)

/-! ## Logical handle operations -/

/-- `spi_init` from `spi_sdk.c`.  Returns the handle, the updated registry
and the HAL trace. -/
def spi_init (sys_freq : Nat) (regs : spi_registry_t) (idx : Nat)
    (slave : spi_slave_t) : spi_t × spi_registry_t × List hal_op :=
  let error := spi_validate_slave sys_freq slave
  let error := if SPI_IDX_INVALID idx then error ||| SPI_CODE_IDX_INVAL else error
  if error ≠ 0 then
    ({ idx := UINT32_MAX, init := false, slave := zero_slave }, regs, [])
  else
    ({ idx := idx, init := true,
       slave := { slave with freq := spi_true_slave_freq sys_freq slave.freq } },
     peri_set regs idx { peri_get regs idx with state := spi_state_e.INIT },
     [hal_op.set_enable true, hal_op.output_enable true,
      hal_op.set_errors_enabled SPI_ERROR_IRQALL true])

/-- `SPI_SEG_TX(len)` (missing `spi_sdk.h`; modelled from the spec's segment
encoding, section 6: transmit-only direction at standard speed). -/
def SPI_SEG_TX (len : Nat) : spi_segment_t := { mode := SPI_DIR_TX_ONLY, len := len }

/-- `SPI_SEG_RX(len)` (modelled from the spec: receive-only, standard speed). -/
def SPI_SEG_RX (len : Nat) : spi_segment_t := { mode := SPI_DIR_RX_ONLY, len := len }

/-- `SPI_SEG_BIDIR(len)` (modelled from the spec: bidirectional, standard
speed). -/
def SPI_SEG_BIDIR (len : Nat) : spi_segment_t := { mode := SPI_DIR_BIDIR, len := len }

/-- Common tail of the transfer operations once validation has passed:
launch the transaction on `_peripherals[spi->idx]`.  The blocking operations
then spin in `while (SPI_BUSY(...)) wait_for_interrupt();`, whose progress
comes entirely from the interrupt entry points modelled separately, so the
launch result is returned directly. -/
def spi_launch_on (P : hw_params) (regs : spi_registry_t) (spi : spi_t)
    (txn : spi_transaction_t) (callbacks : spi_callbacks_t) :
    spi_registry_t × List hal_op :=
  let r := spi_launch P (peri_get regs spi.idx) txn callbacks
  (peri_set regs spi.idx r.1, r.2)

/-- `spi_transmit` from `spi_sdk.c` (blocking, `NULL_CALLBACKS`).  Returns
`(code, registry, trace)`. -/
def spi_transmit (sys_freq : Nat) (P : hw_params) (regs : spi_registry_t)
    (spi : spi_t) (src_buffer : Option (List Nat)) (len : Nat) :
    Nat × spi_registry_t × List hal_op :=
  let pr := spi_prepare_transfer sys_freq regs spi
  let error := if SPI_INVALID_LEN len then pr.1 ||| SPI_CODE_TXN_LEN_INVAL else pr.1
  if error ≠ 0 then (error, regs, pr.2)
  else
    let txn : spi_transaction_t :=
      { segments := some [SPI_SEG_TX len], seglen := 1,
        txbuffer := src_buffer, txlen := LEN_WORDS len,
        rxbuffer := none, rxlen := 0 }
    let r := spi_launch_on P regs spi txn NULL_CALLBACKS
    (SPI_CODE_OK, r.1, pr.2 ++ r.2)

/-- `spi_receive` from `spi_sdk.c`. -/
def spi_receive (sys_freq : Nat) (P : hw_params) (regs : spi_registry_t)
    (spi : spi_t) (dest_buffer : Option (List Nat)) (len : Nat) :
    Nat × spi_registry_t × List hal_op :=
  let pr := spi_prepare_transfer sys_freq regs spi
  let error := if SPI_INVALID_LEN len then pr.1 ||| SPI_CODE_TXN_LEN_INVAL else pr.1
  if error ≠ 0 then (error, regs, pr.2)
  else
    let txn : spi_transaction_t :=
      { segments := some [SPI_SEG_RX len], seglen := 1,
        txbuffer := none, txlen := 0,
        rxbuffer := dest_buffer, rxlen := LEN_WORDS len }
    let r := spi_launch_on P regs spi txn NULL_CALLBACKS
    (SPI_CODE_OK, r.1, pr.2 ++ r.2)

/-- `spi_transceive` from `spi_sdk.c`. -/
def spi_transceive (sys_freq : Nat) (P : hw_params) (regs : spi_registry_t)
    (spi : spi_t) (src_buffer dest_buffer : Option (List Nat)) (len : Nat) :
    Nat × spi_registry_t × List hal_op :=
  let pr := spi_prepare_transfer sys_freq regs spi
  let error := if SPI_INVALID_LEN len then pr.1 ||| SPI_CODE_TXN_LEN_INVAL else pr.1
  if error ≠ 0 then (error, regs, pr.2)
  else
    let txn : spi_transaction_t :=
      { segments := some [SPI_SEG_BIDIR len], seglen := 1,
        txbuffer := src_buffer, txlen := LEN_WORDS len,
        rxbuffer := dest_buffer, rxlen := LEN_WORDS len }
    let r := spi_launch_on P regs spi txn NULL_CALLBACKS
    (SPI_CODE_OK, r.1, pr.2 ++ r.2)

/-- `spi_execute` from `spi_sdk.c`: the `SPI_TXN` macro stores `segments_len`
in the `uint8_t` `seglen` field (truncating mod 256); the validator then
runs over the first `seglen` array entries and fills in the word counts. -/
def spi_execute (sys_freq : Nat) (P : hw_params) (regs : spi_registry_t)
    (spi : spi_t) (segments : Option (List spi_segment_t)) (segments_len : Nat)
    (src_buffer dest_buffer : Option (List Nat)) :
    Nat × spi_registry_t × List hal_op :=
  let pr := spi_prepare_transfer sys_freq regs spi
  if pr.1 ≠ 0 then (pr.1, regs, pr.2)
  else
    let seglen := segments_len % 256
    let v := spi_validate_segments ((segments.getD []).take seglen)
    if ¬v.1 then (SPI_CODE_SEGMENT_INVAL, regs, pr.2)
    else
      let txn : spi_transaction_t :=
        { segments := segments, seglen := seglen,
          txbuffer := src_buffer, txlen := v.2.1,
          rxbuffer := dest_buffer, rxlen := v.2.2 }
      let r := spi_launch_on P regs spi txn NULL_CALLBACKS
      (SPI_CODE_OK, r.1, pr.2 ++ r.2)

/-- `spi_transmit_nb` from `spi_sdk.c` (non-blocking, caller callbacks). -/
def spi_transmit_nb (sys_freq : Nat) (P : hw_params) (regs : spi_registry_t)
    (spi : spi_t) (src_buffer : Option (List Nat)) (len : Nat)
    (callbacks : spi_callbacks_t) : Nat × spi_registry_t × List hal_op :=
  let pr := spi_prepare_transfer sys_freq regs spi
  let error := if SPI_INVALID_LEN len then pr.1 ||| SPI_CODE_TXN_LEN_INVAL else pr.1
  if error ≠ 0 then (error, regs, pr.2)
  else
    let txn : spi_transaction_t :=
      { segments := some [SPI_SEG_TX len], seglen := 1,
        txbuffer := src_buffer, txlen := LEN_WORDS len,
        rxbuffer := none, rxlen := 0 }
    let r := spi_launch_on P regs spi txn callbacks
    (SPI_CODE_OK, r.1, pr.2 ++ r.2)

/-- `spi_receive_nb` from `spi_sdk.c`. -/
def spi_receive_nb (sys_freq : Nat) (P : hw_params) (regs : spi_registry_t)
    (spi : spi_t) (dest_buffer : Option (List Nat)) (len : Nat)
    (callbacks : spi_callbacks_t) : Nat × spi_registry_t × List hal_op :=
  let pr := spi_prepare_transfer sys_freq regs spi
  let error := if SPI_INVALID_LEN len then pr.1 ||| SPI_CODE_TXN_LEN_INVAL else pr.1
  if error ≠ 0 then (error, regs, pr.2)
  else
    let txn : spi_transaction_t :=
      { segments := some [SPI_SEG_RX len], seglen := 1,
        txbuffer := none, txlen := 0,
        rxbuffer := dest_buffer, rxlen := LEN_WORDS len }
    let r := spi_launch_on P regs spi txn callbacks
    (SPI_CODE_OK, r.1, pr.2 ++ r.2)

/-- `spi_transceive_nb` from `spi_sdk.c`. -/
def spi_transceive_nb (sys_freq : Nat) (P : hw_params) (regs : spi_registry_t)
    (spi : spi_t) (src_buffer dest_buffer : Option (List Nat)) (len : Nat)
    (callbacks : spi_callbacks_t) : Nat × spi_registry_t × List hal_op :=
  let pr := spi_prepare_transfer sys_freq regs spi
  let error := if SPI_INVALID_LEN len then pr.1 ||| SPI_CODE_TXN_LEN_INVAL else pr.1
  if error ≠ 0 then (error, regs, pr.2)
  else
    let txn : spi_transaction_t :=
      { segments := some [SPI_SEG_BIDIR len], seglen := 1,
        txbuffer := src_buffer, txlen := LEN_WORDS len,
        rxbuffer := dest_buffer, rxlen := LEN_WORDS len }
    let r := spi_launch_on P regs spi txn callbacks
    (SPI_CODE_OK, r.1, pr.2 ++ r.2)

/-- `spi_execute_nb` from `spi_sdk.c`. -/
def spi_execute_nb (sys_freq : Nat) (P : hw_params) (regs : spi_registry_t)
    (spi : spi_t) (segments : Option (List spi_segment_t)) (segments_len : Nat)
    (src_buffer dest_buffer : Option (List Nat)) (callbacks : spi_callbacks_t) :
    Nat × spi_registry_t × List hal_op :=
  let pr := spi_prepare_transfer sys_freq regs spi
  if pr.1 ≠ 0 then (pr.1, regs, pr.2)
  else
    let seglen := segments_len % 256
    let v := spi_validate_segments ((segments.getD []).take seglen)
    if ¬v.1 then (SPI_CODE_SEGMENT_INVAL, regs, pr.2)
    else
      let txn : spi_transaction_t :=
        { segments := segments, seglen := seglen,
          txbuffer := src_buffer, txlen := v.2.1,
          rxbuffer := dest_buffer, rxlen := v.2.2 }
      let r := spi_launch_on P regs spi txn callbacks
      (SPI_CODE_OK, r.1, pr.2 ++ r.2)

/-! ## Interrupt entry points -/

/-- `spi_intr_handler_event_flash` from `spi_sdk.c`: return immediately
unless the flash slot is `BUSY` (`SPI_NOT_BUSY` guard). -/
def spi_intr_handler_event_flash (P : hw_params) (regs : spi_registry_t)
    (events : Nat) : spi_registry_t × List hal_op × List cb_call :=
  if regs.flash.state ≠ spi_state_e.BUSY then (regs, [], [])
  else
    let r := spi_event_handler P regs.flash events
    ({ regs with flash := r.1 }, r.2.1, r.2.2)

/-- `spi_intr_handler_error_flash` from `spi_sdk.c`. -/
def spi_intr_handler_error_flash (regs : spi_registry_t) (errors : Nat) :
    spi_registry_t × List hal_op × List cb_call :=
  if regs.flash.state ≠ spi_state_e.BUSY then (regs, [], [])
  else
    let r := spi_error_handler regs.flash errors
    ({ regs with flash := r.1 }, r.2.1, r.2.2)

/-- `spi_intr_handler_event_host` from `spi_sdk.c`. -/
def spi_intr_handler_event_host (P : hw_params) (regs : spi_registry_t)
    (events : Nat) : spi_registry_t × List hal_op × List cb_call :=
  if regs.host.state ≠ spi_state_e.BUSY then (regs, [], [])
  else
    let r := spi_event_handler P regs.host events
    ({ regs with host := r.1 }, r.2.1, r.2.2)

/-- `spi_intr_handler_error_host` from `spi_sdk.c`. -/
def spi_intr_handler_error_host (regs : spi_registry_t) (errors : Nat) :
    spi_registry_t × List hal_op × List cb_call :=
  if regs.host.state ≠ spi_state_e.BUSY then (regs, [], [])
  else
    let r := spi_error_handler regs.host errors
    ({ regs with host := r.1 }, r.2.1, r.2.2)

/-- `spi_intr_handler_event_host2` from `spi_sdk.c`. -/
def spi_intr_handler_event_host2 (P : hw_params) (regs : spi_registry_t)
    (events : Nat) : spi_registry_t × List hal_op × List cb_call :=
  if regs.host2.state ≠ spi_state_e.BUSY then (regs, [], [])
  else
    let r := spi_event_handler P regs.host2 events
    ({ regs with host2 := r.1 }, r.2.1, r.2.2)

/-- `spi_intr_handler_error_host2` from `spi_sdk.c`. -/
def spi_intr_handler_error_host2 (regs : spi_registry_t) (errors : Nat) :
    spi_registry_t × List hal_op × List cb_call :=
  if regs.host2.state ≠ spi_state_e.BUSY then (regs, [], [])
  else
    let r := spi_error_handler regs.host2 errors
    ({ regs with host2 := r.1 }, r.2.1, r.2.2)

/-! ## Helper notions used by the theorems -/

/-- Direction nibble of a segment, as extracted by the SDK. -/
def seg_direction (s : spi_segment_t) : Nat := bitfield_read s.mode 3 0

/-- Speed nibble of a segment, as extracted by the SDK. -/
def seg_speed (s : spi_segment_t) : Nat := bitfield_read s.mode 3 2

/-- Sum, over transmit-only and bidirectional segments, of the byte lengths
rounded up to whole words. -/
def tx_tally (segs : List spi_segment_t) : Nat :=
  (segs.map fun s =>
    if seg_direction s = SPI_DIR_TX_ONLY ∨ seg_direction s = SPI_DIR_BIDIR
    then LEN_WORDS s.len else 0).sum

/-- Sum, over receive-only and bidirectional segments, of the byte lengths
rounded up to whole words. -/
def rx_tally (segs : List spi_segment_t) : Nat :=
  (segs.map fun s =>
    if seg_direction s = SPI_DIR_RX_ONLY ∨ seg_direction s = SPI_DIR_BIDIR
    then LEN_WORDS s.len else 0).sum

/-- Recognizer for `write_word` trace operations (used to state that a FIFO
fill pass did not run). -/
def is_write_word : hal_op → Bool
  | hal_op.write_word _ => true
  | _ => false

theorem spi_validate_cmd_eq_false_iff (d s : Nat) :
    spi_validate_cmd d s = false ↔
      (s > SPI_SPEED_QUAD ∨ (d = SPI_DIR_BIDIR ∧ s ≠ SPI_SPEED_STANDARD)) := by
  unfold spi_validate_cmd
  split <;> simp_all

theorem spi_validate_segments_go_false_iff (segs : List spi_segment_t) :
    ∀ t r : Nat, (spi_validate_segments_go segs t r).1 = false ↔
      ∃ s ∈ segs, seg_speed s > SPI_SPEED_QUAD ∨
        (seg_direction s = SPI_DIR_BIDIR ∧ seg_speed s ≠ SPI_SPEED_STANDARD) := by
  induction segs with
  | nil => intro t r; simp [spi_validate_segments_go]
  | cons a rest ih =>
    intro t r
    rw [spi_validate_segments_go]
    by_cases h : spi_validate_cmd (bitfield_read a.mode 3 0) (bitfield_read a.mode 3 2)
    · have ha : ¬(seg_speed a > SPI_SPEED_QUAD ∨
          (seg_direction a = SPI_DIR_BIDIR ∧ seg_speed a ≠ SPI_SPEED_STANDARD)) := by
        rw [← spi_validate_cmd_eq_false_iff]
        simp [seg_speed, seg_direction, h]
      simp only [h, if_true]
      rw [ih]
      simp [ha]
    · have ha : seg_speed a > SPI_SPEED_QUAD ∨
          (seg_direction a = SPI_DIR_BIDIR ∧ seg_speed a ≠ SPI_SPEED_STANDARD) := by
        rw [← spi_validate_cmd_eq_false_iff]
        simpa [seg_speed, seg_direction] using h
      simp only [Bool.not_eq_true] at h
      simp [h, ha]

theorem spi_validate_segments_go_counts (segs : List spi_segment_t) :
    ∀ t r : Nat, (spi_validate_segments_go segs t r).1 = true →
      (spi_validate_segments_go segs t r).2.1 = t + tx_tally segs ∧
      (spi_validate_segments_go segs t r).2.2 = r + rx_tally segs := by
  induction segs with
  | nil => intro t r _; simp [spi_validate_segments_go, tx_tally, rx_tally]
  | cons a rest ih =>
    intro t r hv
    rw [spi_validate_segments_go] at hv ⊢
    by_cases h : spi_validate_cmd (bitfield_read a.mode 3 0) (bitfield_read a.mode 3 2)
    · simp only [h, if_true] at hv ⊢
      have := ih _ _ hv
      rw [this.1, this.2]
      constructor
      · simp [tx_tally, seg_direction]
        split <;> omega
      · simp [rx_tally, seg_direction]
        split <;> omega
    · simp [h] at hv

/-- C4: the Segment Validator returns `false` exactly when some segment has
speed above quad or bidirectional direction at non-standard speed; on
success, its transmit tally is the word-rounded byte-length sum over
transmit-only/bidirectional segments, and its receive tally the analogous
sum over receive-only/bidirectional segments (bidirectional counts in both,
dummy in neither). -/
theorem spi_validate_segments_spec (segs : List spi_segment_t) :
    ((spi_validate_segments segs).1 = false ↔
      ∃ s ∈ segs, seg_speed s > SPI_SPEED_QUAD ∨
        (seg_direction s = SPI_DIR_BIDIR ∧ seg_speed s ≠ SPI_SPEED_STANDARD)) ∧
    ((spi_validate_segments segs).1 = true →
      (spi_validate_segments segs).2.1 = tx_tally segs ∧
      (spi_validate_segments segs).2.2 = rx_tally segs) := by
  constructor
  · exact spi_validate_segments_go_false_iff segs 0 0
  · intro hv
    have := spi_validate_segments_go_counts segs 0 0 hv
    simpa [spi_validate_segments] using this

/-- C4 witness: the specification applied to the concrete segment list
`[TX 5 bytes, BIDIR 4 bytes, RX 1 byte]`, whose tallies are 3 TX words and
2 RX words. -/
theorem spi_validate_segments_spec_witness :
    (spi_validate_segments
        [{ mode := 2, len := 5 }, { mode := 3, len := 4 }, { mode := 1, len := 1 }]).1
      = true ∧
    (spi_validate_segments
        [{ mode := 2, len := 5 }, { mode := 3, len := 4 }, { mode := 1, len := 1 }]).2.1
      = 3 ∧
    (spi_validate_segments
        [{ mode := 2, len := 5 }, { mode := 3, len := 4 }, { mode := 1, len := 1 }]).2.2
      = 2 := by
  have h := (spi_validate_segments_spec
    [{ mode := 2, len := 5 }, { mode := 3, len := 4 }, { mode := 1, len := 1 }]).2
    (by decide)
  exact ⟨by decide, by rw [h.1]; decide, by rw [h.2]; decide⟩

/-! ## Clock divisor arithmetic (C5) -/

theorem c_sub32_eq_sub {a : Nat} (h2 : 2 ≤ a) (hlt : a < UINT32_LIMIT) :
    c_sub32 a 2 = a - 2 := by
  unfold c_sub32 UINT32_LIMIT at *
  omega

theorem div_lt_succ_mul (sys freq : Nat) (hf : 0 < freq) :
    sys < freq * (sys / freq) + freq := by
  have e := Nat.div_add_mod sys freq
  have hr := Nat.mod_lt sys hf
  omega

/-- Shared helper: on the branch `freq < sys / 2` the divisor computation
never wraps out of `uint16_t` range provided the untruncated quotient fits,
and the achievable frequency then stays at or below the request. -/
theorem spi_true_slave_freq_le (sys freq : Nat) (hf : 0 < freq)
    (hsys : sys < UINT32_LIMIT) (hno : (sys / freq - 2) / 2 < UINT16_LIMIT) :
    spi_true_slave_freq sys freq ≤ freq := by
  unfold spi_true_slave_freq spi_clk_div
  by_cases hb : freq < sys / 2
  · have hs2 : (freq + 1) * 2 ≤ sys := by
      have h1 : freq + 1 ≤ sys / 2 := hb
      exact (Nat.le_div_iff_mul_le (by norm_num)).mp h1
    have hm2 : 2 ≤ sys / freq := by
      rw [Nat.le_div_iff_mul_le hf]
      omega
    have hmlt : sys / freq < UINT32_LIMIT :=
      lt_of_le_of_lt (Nat.div_le_self _ _) hsys
    have hsub : c_sub32 (sys / freq) 2 = sys / freq - 2 := c_sub32_eq_sub hm2 hmlt
    have hmod : (sys / freq - 2) / 2 % UINT16_LIMIT = (sys / freq - 2) / 2 :=
      Nat.mod_eq_of_lt hno
    simp only [hb, if_true, hsub, hmod]
    by_cases hc : sys / (2 * ((sys / freq - 2) / 2) + 2) > freq
    · -- the `clk_div++` case
      have hlt1 : sys < freq * (sys / freq) + freq := div_lt_succ_mul sys freq hf
      have hdm := Nat.div_add_mod (sys / freq - 2) 2
      have hd0ne : (sys / freq - 2) / 2 ≠ 65535 := by
        intro heq
        rw [heq] at hc hdm
        -- sys / freq is 131072 or 131073
        have hmle : sys / freq ≤ 131073 := by omega
        have h2' : freq * (sys / freq) ≤ freq * 131073 :=
          Nat.mul_le_mul_left freq hmle
        have h3' : (freq + 1) * 131072 ≤ sys :=
          (Nat.le_div_iff_mul_le (by norm_num)).mp hc
        unfold UINT32_LIMIT at hsys
        omega
      have hmod2 : ((sys / freq - 2) / 2 + 1) % UINT16_LIMIT
          = (sys / freq - 2) / 2 + 1 := by
        apply Nat.mod_eq_of_lt
        unfold UINT16_LIMIT at hno ⊢
        omega
      simp only [hc, if_true, hmod2]
      have hmle : sys / freq + 1 ≤ 2 * ((sys / freq - 2) / 2) + 4 := by
        have hdm := Nat.div_add_mod (sys / freq - 2) 2
        omega
      have hstep : freq * (sys / freq + 1) ≤ freq * (2 * ((sys / freq - 2) / 2) + 4) :=
        Nat.mul_le_mul_left freq hmle
      have hlt2 : sys < freq * (2 * ((sys / freq - 2) / 2 + 1) + 2) := by
        have hlt1 : sys < freq * (sys / freq) + freq := div_lt_succ_mul sys freq hf
        have : freq * (sys / freq + 1) = freq * (sys / freq) + freq := by ring
        have heq : 2 * ((sys / freq - 2) / 2 + 1) + 2
            = 2 * ((sys / freq - 2) / 2) + 4 := by ring
        rw [heq]
        omega
      have := (Nat.div_lt_iff_lt_mul (by omega :
        0 < 2 * ((sys / freq - 2) / 2 + 1) + 2)).mpr hlt2
      omega
    · rw [if_neg hc]
      omega
  · simp only [hb, if_false]
    omega

/-- C5: for every 32-bit system clock and positive requested frequency, the
divisor computation yields 0 whenever the request is at least half the
system clock (in particular at 20 MHz / 10 MHz); otherwise it yields
`((sys/req − 2) / 2) mod 2^16`, stepped once more (mod 2^16) when the
achievable frequency would still exceed the request; and the achievable
frequency `sys / (2·div + 2)` never exceeds the request provided the
untruncated `(sys/req − 2) / 2` fits in 16 bits. -/
theorem spi_clk_div_spec (sys freq : Nat) (hf : 0 < freq)
    (hsys : sys < UINT32_LIMIT) :
    spi_clk_div 20000000 10000000 = 0 ∧
    (sys / 2 ≤ freq → spi_clk_div sys freq = 0) ∧
    (freq < sys / 2 → spi_clk_div sys freq =
      (if freq < sys / (2 * ((sys / freq - 2) / 2 % UINT16_LIMIT) + 2)
       then ((sys / freq - 2) / 2 % UINT16_LIMIT + 1) % UINT16_LIMIT
       else (sys / freq - 2) / 2 % UINT16_LIMIT)) ∧
    ((sys / freq - 2) / 2 < UINT16_LIMIT →
      spi_true_slave_freq sys freq ≤ freq) := by
  refine ⟨by decide, ?_, ?_, ?_⟩
  · intro h
    unfold spi_clk_div
    have : ¬freq < sys / 2 := by omega
    simp [this]
  · intro hb
    have hs2 : (freq + 1) * 2 ≤ sys := (Nat.le_div_iff_mul_le (by norm_num)).mp hb
    have hm2 : 2 ≤ sys / freq := by
      rw [Nat.le_div_iff_mul_le hf]
      omega
    have hmlt : sys / freq < UINT32_LIMIT :=
      lt_of_le_of_lt (Nat.div_le_self _ _) hsys
    unfold spi_clk_div
    simp only [hb, if_true, c_sub32_eq_sub hm2 hmlt]
  · exact spi_true_slave_freq_le sys freq hf hsys

/-- C5 witness: at a 20 MHz system clock and a 1 MHz request (positive and
below half the clock), the divisor is 9, the untruncated quotient fits in
16 bits, and the achievable frequency 1 MHz does not exceed the request. -/
theorem spi_clk_div_spec_witness :
    0 < 1000000 ∧ (20000000 : Nat) < UINT32_LIMIT ∧
    spi_clk_div 20000000 10000000 = 0 ∧
    spi_true_slave_freq 20000000 1000000 ≤ 1000000 := by
  have h := spi_clk_div_spec 20000000 1000000 (by decide) (by decide)
  exact ⟨by decide, by decide, h.1, h.2.2.2 (by decide)⟩

/-- C5 counterexample: at system clock 131074 Hz and a positive request of
1 Hz (below half the clock), the claimed divisor `(sys/req − 2) / 2` is
65536, but the `uint16_t` computation returns 1, and the resulting
achievable frequency 32768 Hz exceeds the request. -/
theorem spi_clk_div_cex :
    (1 : Nat) < 131074 / 2 ∧
    (131074 / 1 - 2) / 2 = 65536 ∧
    spi_clk_div 131074 1 = 1 ∧
    spi_clk_div 131074 1 ≠ 65536 ∧ spi_clk_div 131074 1 ≠ 65537 ∧
    spi_true_slave_freq 131074 1 = 32768 ∧
    1 < spi_true_slave_freq 131074 1 := by decide

/-! ## Error dispatcher (C3) -/

/-- C3: for every busy slot and any error bitmask, one invocation of the
error dispatcher disables all events and the event interrupt (and performs
no other hardware access — in particular no command is issued, so nothing is
retried), transitions the slot to `ERROR`, invokes the error callback (when
set) with the in-flight transaction's buffers and lengths, and resets the
counters, transaction and callbacks to their empty defaults. -/
theorem spi_error_handler_spec (peri : spi_peripheral_t) (error : Nat)
    (_hb : peri.state = spi_state_e.BUSY) :
    (spi_error_handler peri error).2.1 =
      [hal_op.set_events_enabled SPI_EVENT_ALL false,
       hal_op.enable_evt_intr false] ∧
    (spi_error_handler peri error).1.state = spi_state_e.ERROR ∧
    (spi_error_handler peri error).2.2 =
      (if peri.callbacks.error_cb then [mk_cb cb_kind.error peri.txn] else []) ∧
    (spi_error_handler peri error).1.scnt = 0 ∧
    (spi_error_handler peri error).1.wcnt = 0 ∧
    (spi_error_handler peri error).1.rcnt = 0 ∧
    (spi_error_handler peri error).1.txn = empty_txn ∧
    (spi_error_handler peri error).1.callbacks = NULL_CALLBACKS ∧
    (∀ op ∈ (spi_error_handler peri error).2.1, ∀ c, op ≠ hal_op.set_command c) := by
  refine ⟨rfl, rfl, ?_, rfl, rfl, rfl, rfl, rfl, ?_⟩
  · simp [spi_error_handler, mk_cb]
  · intro op hop c
    have hcases : op = hal_op.set_events_enabled SPI_EVENT_ALL false ∨
        op = hal_op.enable_evt_intr false := by
      simpa [spi_error_handler] using hop
    rcases hcases with h | h <;> simp [h]

/-- C3 witness: a concrete busy slot with an error callback installed. -/
theorem spi_error_handler_spec_witness :
    (spi_error_handler
      { hw := { txqd := 0, rxfifo := [], active := false },
        state := spi_state_e.BUSY,
        txn := { segments := some [{ mode := 2, len := 4 }], seglen := 1,
                 txbuffer := some [11], txlen := 1, rxbuffer := none, rxlen := 0 },
        scnt := 1, wcnt := 1, rcnt := 0,
        callbacks := { done_cb := false, txwm_cb := false, rxwm_cb := false,
                       error_cb := true } } 5).1.state = spi_state_e.ERROR ∧
    (spi_error_handler
      { hw := { txqd := 0, rxfifo := [], active := false },
        state := spi_state_e.BUSY,
        txn := { segments := some [{ mode := 2, len := 4 }], seglen := 1,
                 txbuffer := some [11], txlen := 1, rxbuffer := none, rxlen := 0 },
        scnt := 1, wcnt := 1, rcnt := 0,
        callbacks := { done_cb := false, txwm_cb := false, rxwm_cb := false,
                       error_cb := true } } 5).2.2 =
      [{ kind := cb_kind.error, txbuffer := some [11], txlen := 1,
         rxbuffer := none, rxlen := 0 }] := by
  have h := spi_error_handler_spec
    { hw := { txqd := 0, rxfifo := [], active := false },
      state := spi_state_e.BUSY,
      txn := { segments := some [{ mode := 2, len := 4 }], seglen := 1,
               txbuffer := some [11], txlen := 1, rxbuffer := none, rxlen := 0 },
      scnt := 1, wcnt := 1, rcnt := 0,
      callbacks := { done_cb := false, txwm_cb := false, rxwm_cb := false,
                     error_cb := true } } 5 rfl
  exact ⟨h.2.1, by rw [h.2.2.1]; decide⟩

/-! ## Spurious interrupts on non-busy slots (C10) -/

/-- C10: each of the six interrupt entry points returns immediately when its
slot is not `BUSY`: the registry is unchanged (no slot field mutated), no
hardware operation is performed and no callback is invoked. -/
theorem spi_intr_not_busy_spec (P : hw_params) (regs : spi_registry_t)
    (events errors : Nat) :
    (regs.flash.state ≠ spi_state_e.BUSY →
      spi_intr_handler_event_flash P regs events = (regs, [], []) ∧
      spi_intr_handler_error_flash regs errors = (regs, [], [])) ∧
    (regs.host.state ≠ spi_state_e.BUSY →
      spi_intr_handler_event_host P regs events = (regs, [], []) ∧
      spi_intr_handler_error_host regs errors = (regs, [], [])) ∧
    (regs.host2.state ≠ spi_state_e.BUSY →
      spi_intr_handler_event_host2 P regs events = (regs, [], []) ∧
      spi_intr_handler_error_host2 regs errors = (regs, [], [])) := by
  refine ⟨fun h => ⟨?_, ?_⟩, fun h => ⟨?_, ?_⟩, fun h => ⟨?_, ?_⟩⟩ <;>
    simp [spi_intr_handler_event_flash, spi_intr_handler_error_flash,
      spi_intr_handler_event_host, spi_intr_handler_error_host,
      spi_intr_handler_event_host2, spi_intr_handler_error_host2, h]

/-- C10 witness: a registry whose flash slot is `DONE`, host slot is `NONE`
and host2 slot is `ERROR`; every entry point leaves it untouched. -/
theorem spi_intr_not_busy_spec_witness :
    spi_intr_handler_event_flash { txDepth := 8, rxDepth := 16 }
      { flash := { hw := { txqd := 0, rxfifo := [], active := false },
                   state := spi_state_e.DONE, txn := empty_txn, scnt := 0,
                   wcnt := 0, rcnt := 0, callbacks := NULL_CALLBACKS },
        host := { hw := { txqd := 0, rxfifo := [], active := false },
                  state := spi_state_e.NONE, txn := empty_txn, scnt := 0,
                  wcnt := 0, rcnt := 0, callbacks := NULL_CALLBACKS },
        host2 := { hw := { txqd := 0, rxfifo := [], active := false },
                   state := spi_state_e.ERROR, txn := empty_txn, scnt := 0,
                   wcnt := 0, rcnt := 0, callbacks := NULL_CALLBACKS } } 56 =
      ({ flash := { hw := { txqd := 0, rxfifo := [], active := false },
                    state := spi_state_e.DONE, txn := empty_txn, scnt := 0,
                    wcnt := 0, rcnt := 0, callbacks := NULL_CALLBACKS },
         host := { hw := { txqd := 0, rxfifo := [], active := false },
                   state := spi_state_e.NONE, txn := empty_txn, scnt := 0,
                   wcnt := 0, rcnt := 0, callbacks := NULL_CALLBACKS },
         host2 := { hw := { txqd := 0, rxfifo := [], active := false },
                    state := spi_state_e.ERROR, txn := empty_txn, scnt := 0,
                    wcnt := 0, rcnt := 0, callbacks := NULL_CALLBACKS } }, [], []) ∧
    spi_intr_handler_error_host2
      { flash := { hw := { txqd := 0, rxfifo := [], active := false },
                   state := spi_state_e.DONE, txn := empty_txn, scnt := 0,
                   wcnt := 0, rcnt := 0, callbacks := NULL_CALLBACKS },
        host := { hw := { txqd := 0, rxfifo := [], active := false },
                  state := spi_state_e.NONE, txn := empty_txn, scnt := 0,
                  wcnt := 0, rcnt := 0, callbacks := NULL_CALLBACKS },
        host2 := { hw := { txqd := 0, rxfifo := [], active := false },
                   state := spi_state_e.ERROR, txn := empty_txn, scnt := 0,
                   wcnt := 0, rcnt := 0, callbacks := NULL_CALLBACKS } } 3 =
      ({ flash := { hw := { txqd := 0, rxfifo := [], active := false },
                    state := spi_state_e.DONE, txn := empty_txn, scnt := 0,
                    wcnt := 0, rcnt := 0, callbacks := NULL_CALLBACKS },
         host := { hw := { txqd := 0, rxfifo := [], active := false },
                   state := spi_state_e.NONE, txn := empty_txn, scnt := 0,
                   wcnt := 0, rcnt := 0, callbacks := NULL_CALLBACKS },
         host2 := { hw := { txqd := 0, rxfifo := [], active := false },
                    state := spi_state_e.ERROR, txn := empty_txn, scnt := 0,
                    wcnt := 0, rcnt := 0, callbacks := NULL_CALLBACKS } }, [], []) := by
  have h := spi_intr_not_busy_spec { txDepth := 8, rxDepth := 16 }
    { flash := { hw := { txqd := 0, rxfifo := [], active := false },
                 state := spi_state_e.DONE, txn := empty_txn, scnt := 0,
                 wcnt := 0, rcnt := 0, callbacks := NULL_CALLBACKS },
      host := { hw := { txqd := 0, rxfifo := [], active := false },
                state := spi_state_e.NONE, txn := empty_txn, scnt := 0,
                wcnt := 0, rcnt := 0, callbacks := NULL_CALLBACKS },
      host2 := { hw := { txqd := 0, rxfifo := [], active := false },
                 state := spi_state_e.ERROR, txn := empty_txn, scnt := 0,
                 wcnt := 0, rcnt := 0, callbacks := NULL_CALLBACKS } } 56 3
  exact ⟨(h.1 (by decide)).1, (h.2.2 (by decide)).2⟩

/-! ## The unguarded arming window in the launcher (C9) -/

/-- C9: evaluating the launcher on a concrete single-segment transmit
transaction: the full HAL trace is exactly watermark programming, the FIFO
fill, event enable, event-interrupt enable, the busy-wait for ready and the
first command — and no CPU-level interrupt-masking operation occurs anywhere
in it, so the span between enabling the event interrupt line and issuing the
first command is not protected against the event interrupt. -/
theorem spi_launch_window_unmasked :
    (spi_launch { txDepth := 8, rxDepth := 16 }
      { hw := { txqd := 0, rxfifo := [], active := false },
        state := spi_state_e.INIT, txn := empty_txn, scnt := 0, wcnt := 0,
        rcnt := 0, callbacks := NULL_CALLBACKS }
      { segments := some [{ mode := 2, len := 4 }], seglen := 1,
        txbuffer := some [11], txlen := 1, rxbuffer := none, rxlen := 0 }
      NULL_CALLBACKS).2 =
      [hal_op.set_tx_watermark 2, hal_op.set_rx_watermark 4,
       hal_op.write_word 11, hal_op.set_events_enabled 60 true,
       hal_op.enable_evt_intr true, hal_op.wait_ready,
       hal_op.set_command 268435459] ∧
    (∀ op ∈ (spi_launch { txDepth := 8, rxDepth := 16 }
      { hw := { txqd := 0, rxfifo := [], active := false },
        state := spi_state_e.INIT, txn := empty_txn, scnt := 0, wcnt := 0,
        rcnt := 0, callbacks := NULL_CALLBACKS }
      { segments := some [{ mode := 2, len := 4 }], seglen := 1,
        txbuffer := some [11], txlen := 1, rxbuffer := none, rxlen := 0 }
      NULL_CALLBACKS).2, ∀ b : Bool, op ≠ hal_op.intr_global_mask b) := by
  decide

/-! ## Launcher specification (C1) -/

theorem and_one_eq_ite (n : Nat) : n &&& 1 = if n.testBit 0 then 1 else 0 := by
  rw [Nat.and_one_is_mod, Nat.testBit_zero]
  rcases Nat.mod_two_eq_zero_or_one n with h | h <;> simp [h]

theorem spi_create_command_testBit_csaat (c : spi_command_t) :
    (spi_create_command c).testBit 24 = c.csaat := by
  simp [spi_create_command, bitfield_write, Nat.testBit_lor, Nat.testBit_land,
    Nat.testBit_xor, Nat.testBit_shiftLeft, UINT32_MAX, BIT_MASK_1,
    SPI_HOST_COMMAND_LEN_MASK, SPI_HOST_COMMAND_LEN_OFFSET,
    SPI_HOST_COMMAND_CSAAT_BIT, SPI_HOST_COMMAND_SPEED_MASK,
    SPI_HOST_COMMAND_SPEED_OFFSET, SPI_HOST_COMMAND_DIRECTION_MASK,
    SPI_HOST_COMMAND_DIRECTION_OFFSET]
  cases c.csaat <;> simp
  · exact fun _ h => absurd h (by decide)
  · exact ⟨by decide, by decide⟩

theorem spi_create_command_read_csaat (c : spi_command_t) :
    bitfield_read (spi_create_command c) BIT_MASK_1 SPI_HOST_COMMAND_CSAAT_BIT =
      if c.csaat then 1 else 0 := by
  have h1 : BIT_MASK_1 = 1 := rfl
  have h2 : SPI_HOST_COMMAND_CSAAT_BIT = 24 := rfl
  rw [bitfield_read, h1, h2, and_one_eq_ite, Nat.testBit_shiftRight]
  simp [spi_create_command_testBit_csaat]

theorem spi_fill_tx_preserve (P : hw_params) (p : spi_peripheral_t) :
    (spi_fill_tx P p).1.state = p.state ∧ (spi_fill_tx P p).1.txn = p.txn ∧
    (spi_fill_tx P p).1.callbacks = p.callbacks ∧
    (spi_fill_tx P p).1.scnt = p.scnt ∧ (spi_fill_tx P p).1.rcnt = p.rcnt := by
  unfold spi_fill_tx
  cases h : p.txn.txbuffer with
  | none => simp
  | some buf =>
    simp only
    split <;> simp

theorem spi_fill_tx_loop_ops (P : hw_params) (buf : List Nat) (txlen : Nat) :
    ∀ (fuel : Nat) (hw : spi_hw_t) (wcnt : Nat),
      ∀ op ∈ (spi_fill_tx_loop P buf txlen fuel hw wcnt).2.2,
        ∃ w, op = hal_op.write_word w := by
  intro fuel
  induction fuel with
  | zero => intro hw wcnt op hop; simp [spi_fill_tx_loop] at hop
  | succ n ih =>
    intro hw wcnt op hop
    rw [spi_fill_tx_loop] at hop
    by_cases h1 : wcnt < txlen
    · simp only [h1, if_true] at hop
      by_cases h2 : hw.txqd < P.txDepth
      · simp only [h2, if_true] at hop
        rcases List.mem_cons.mp hop with h | h
        · exact ⟨_, h⟩
        · exact ih _ _ op h
      · simp [h2] at hop
    · simp [h1] at hop

theorem spi_fill_tx_ops (P : hw_params) (p : spi_peripheral_t) :
    ∀ op ∈ (spi_fill_tx P p).2, ∃ w, op = hal_op.write_word w := by
  unfold spi_fill_tx
  cases h : p.txn.txbuffer with
  | none => simp
  | some buf =>
    simp only
    split
    · exact spi_fill_tx_loop_ops P buf p.txn.txlen _ p.hw p.wcnt
    · simp

theorem decide_csaat_eq (n : Nat) : decide (0 < n - 1) = decide (1 < n) := by
  rw [decide_eq_decide]
  omega

/-- C1: `spi_launch` sets the slot `BUSY`, stores the transaction and
callbacks, and (starting from the reset segment-cursor value 0) leaves the
cursor at 1; its HAL trace is exactly: TX watermark programmed to a quarter
of the TX FIFO depth, RX watermark to the RX depth minus 12, one
non-blocking TX fill pass, enabling the Idle/Ready/TxWatermark/RxWatermark
events and the event interrupt line, the busy-wait for hardware ready, and
the first segment issued as a hardware command whose chip-select-active-
after bit is set iff the transaction has more than one segment. -/
theorem spi_launch_spec (P : hw_params) (peri : spi_peripheral_t)
    (txn : spi_transaction_t) (cbs : spi_callbacks_t) (h0 : peri.scnt = 0) :
    (spi_launch P peri txn cbs).1.state = spi_state_e.BUSY ∧
    (spi_launch P peri txn cbs).1.txn = txn ∧
    (spi_launch P peri txn cbs).1.callbacks = cbs ∧
    (spi_launch P peri txn cbs).1.scnt = 1 ∧
    (spi_launch P peri txn cbs).2 =
      hal_op.set_tx_watermark (P.txDepth / 4) ::
      hal_op.set_rx_watermark (P.rxDepth - 12) ::
      ((spi_fill_tx P
          { peri with
            state := spi_state_e.BUSY, txn := txn, callbacks := cbs }).2 ++
        [hal_op.set_events_enabled
           (SPI_EVENT_IDLE ||| SPI_EVENT_READY ||| SPI_EVENT_TXWM ||| SPI_EVENT_RXWM)
           true,
         hal_op.enable_evt_intr true,
         hal_op.wait_ready,
         hal_op.set_command (spi_create_command
           { len := c_sub32 (txn_seg txn 0).len 1,
             csaat := decide (1 < txn.seglen),
             speed := bitfield_read (txn_seg txn 0).mode 3 2,
             direction := bitfield_read (txn_seg txn 0).mode 3 0 })]) ∧
    (bitfield_read
        (spi_create_command
          { len := c_sub32 (txn_seg txn 0).len 1,
            csaat := decide (1 < txn.seglen),
            speed := bitfield_read (txn_seg txn 0).mode 3 2,
            direction := bitfield_read (txn_seg txn 0).mode 3 0 })
        BIT_MASK_1 SPI_HOST_COMMAND_CSAAT_BIT = 1 ↔ 1 < txn.seglen) := by
  have hpres := spi_fill_tx_preserve P
    { peri with state := spi_state_e.BUSY, txn := txn, callbacks := cbs }
  simp only [] at hpres
  refine ⟨?_, ?_, ?_, ?_, ?_, ?_⟩
  · simpa [spi_launch] using hpres.1
  · simpa [spi_launch] using hpres.2.1
  · simpa [spi_launch] using hpres.2.2.1
  · have h1 := hpres.2.2.2.1
    simp only [spi_launch]
    simp [h1]
    omega
  · simp [spi_launch, spi_issue_cmd, TX_WATERMARK, RX_WATERMARK,
      decide_csaat_eq]
  · rw [spi_create_command_read_csaat]
    by_cases h : 1 < txn.seglen <;> simp [h]

/-- C1 witness: the launcher applied to a fresh slot (cursor 0) and a
single-segment transmit transaction. -/
theorem spi_launch_spec_witness :
    (spi_launch { txDepth := 8, rxDepth := 16 }
      { hw := { txqd := 0, rxfifo := [], active := false },
        state := spi_state_e.INIT, txn := empty_txn, scnt := 0, wcnt := 0,
        rcnt := 0, callbacks := NULL_CALLBACKS }
      { segments := some [{ mode := 2, len := 4 }], seglen := 1,
        txbuffer := some [11], txlen := 1, rxbuffer := none, rxlen := 0 }
      NULL_CALLBACKS).1.state = spi_state_e.BUSY ∧
    (spi_launch { txDepth := 8, rxDepth := 16 }
      { hw := { txqd := 0, rxfifo := [], active := false },
        state := spi_state_e.INIT, txn := empty_txn, scnt := 0, wcnt := 0,
        rcnt := 0, callbacks := NULL_CALLBACKS }
      { segments := some [{ mode := 2, len := 4 }], seglen := 1,
        txbuffer := some [11], txlen := 1, rxbuffer := none, rxlen := 0 }
      NULL_CALLBACKS).1.scnt = 1 := by
  have h := spi_launch_spec { txDepth := 8, rxDepth := 16 }
    { hw := { txqd := 0, rxfifo := [], active := false },
      state := spi_state_e.INIT, txn := empty_txn, scnt := 0, wcnt := 0,
      rcnt := 0, callbacks := NULL_CALLBACKS }
    { segments := some [{ mode := 2, len := 4 }], seglen := 1,
      txbuffer := some [11], txlen := 1, rxbuffer := none, rxlen := 0 }
    NULL_CALLBACKS rfl
  exact ⟨h.1, h.2.2.2.1⟩

/-! ## Event dispatcher (C2) -/

theorem spi_empty_rx_preserve (p : spi_peripheral_t) :
    (spi_empty_rx p).1.state = p.state ∧
    (spi_empty_rx p).1.callbacks = p.callbacks ∧
    (spi_empty_rx p).1.scnt = p.scnt ∧ (spi_empty_rx p).1.wcnt = p.wcnt := by
  unfold spi_empty_rx
  cases h : p.txn.rxbuffer with
  | none => simp
  | some buf =>
    simp only
    split <;> simp

theorem spi_event_wm_txwm_mem (P : hw_params) (p : spi_peripheral_t)
    (events : Nat) (ht : events &&& SPI_EVENT_TXWM ≠ 0)
    (hc : p.callbacks.txwm_cb = true) :
    mk_cb cb_kind.txwm p.txn ∈ (spi_event_wm P p events).2.2 := by
  have hfp := spi_fill_tx_preserve P p
  simp only [] at hfp
  unfold spi_event_wm
  simp only [if_pos ht, hfp.2.2.1, hc, if_true, hfp.2.1]
  by_cases hr : events &&& SPI_EVENT_RXWM ≠ 0 <;> simp [hr]

theorem spi_event_wm_rxwm_mem (P : hw_params) (p : spi_peripheral_t)
    (events : Nat) (hr : events &&& SPI_EVENT_RXWM ≠ 0)
    (hc : p.callbacks.rxwm_cb = true) :
    ∃ c ∈ (spi_event_wm P p events).2.2, c.kind = cb_kind.rxwm := by
  have hfp := spi_fill_tx_preserve P p
  simp only [] at hfp
  unfold spi_event_wm
  by_cases ht : events &&& SPI_EVENT_TXWM ≠ 0
  · have hep := spi_empty_rx_preserve (spi_fill_tx P p).1
    simp only [if_pos ht, if_pos hr, hep.2.1, hfp.2.2.1, hc, if_true]
    refine ⟨mk_cb cb_kind.rxwm (spi_empty_rx (spi_fill_tx P p).1).1.txn,
      List.mem_append_right _ ?_, rfl⟩
    simp
  · have hep := spi_empty_rx_preserve p
    simp only [if_neg ht, if_pos hr, hep.2.1, hc, if_true]
    refine ⟨mk_cb cb_kind.rxwm (spi_empty_rx p).1.txn,
      List.mem_append_right _ ?_, rfl⟩
    simp

theorem spi_event_wm_scnt (P : hw_params) (p : spi_peripheral_t)
    (events : Nat) : (spi_event_wm P p events).1.scnt = p.scnt := by
  have hfp := spi_fill_tx_preserve P p
  unfold spi_event_wm
  by_cases ht : events &&& SPI_EVENT_TXWM ≠ 0 <;>
    by_cases hr : events &&& SPI_EVENT_RXWM ≠ 0 <;>
      simp [ht, hr, (spi_empty_rx_preserve _).2.2.1, hfp.2.2.2.1]

/-- C2 (amended): in one invocation of the event dispatcher, whenever the
completion branch (Ready set, no segment remaining *and* Idle set) is not
taken, every applicable condition is handled in that same invocation: a
`TxWatermark` bit with an installed callback records a transmit-watermark
callback carrying the slot's transaction, an `RxWatermark` bit with an
installed callback records a receive-watermark callback, and a `Ready` bit
with segments remaining advances the cursor and issues the next segment as
the first traced hardware operation. -/
theorem spi_event_handler_spec (P : hw_params) (peri : spi_peripheral_t)
    (events : Nat)
    (hnc : ¬(events &&& SPI_EVENT_READY ≠ 0 ∧ events &&& SPI_EVENT_IDLE ≠ 0 ∧
      ¬(peri.txn.segments.isSome ∧ peri.scnt < peri.txn.seglen))) :
    ((events &&& SPI_EVENT_TXWM ≠ 0 ∧ peri.callbacks.txwm_cb = true) →
      mk_cb cb_kind.txwm peri.txn ∈ (spi_event_handler P peri events).2.2) ∧
    ((events &&& SPI_EVENT_RXWM ≠ 0 ∧ peri.callbacks.rxwm_cb = true) →
      ∃ c ∈ (spi_event_handler P peri events).2.2, c.kind = cb_kind.rxwm) ∧
    ((events &&& SPI_EVENT_READY ≠ 0 ∧ peri.txn.segments.isSome ∧
        peri.scnt < peri.txn.seglen) →
      (spi_event_handler P peri events).1.scnt = peri.scnt + 1 ∧
      (spi_event_handler P peri events).2.1.take 1 =
        [hal_op.set_command (spi_create_command
          { len := c_sub32 (txn_seg peri.txn peri.scnt).len 1,
            csaat := decide (peri.scnt < peri.txn.seglen - 1),
            speed := bitfield_read (txn_seg peri.txn peri.scnt).mode 3 2,
            direction := bitfield_read (txn_seg peri.txn peri.scnt).mode 3 0 })]) := by
  by_cases hR : events &&& SPI_EVENT_READY ≠ 0
  · by_cases hM : peri.txn.segments.isSome ∧ peri.scnt < peri.txn.seglen
    · unfold spi_event_handler
      simp only [if_pos hR, if_pos hM]
      refine ⟨?_, ?_, ?_⟩
      · intro h
        exact spi_event_wm_txwm_mem P { peri with scnt := peri.scnt + 1 }
          events h.1 h.2
      · intro h
        exact spi_event_wm_rxwm_mem P { peri with scnt := peri.scnt + 1 }
          events h.1 h.2
      · intro _
        constructor
        · simpa using spi_event_wm_scnt P { peri with scnt := peri.scnt + 1 } events
        · simp [spi_issue_cmd]
    · have hI : ¬events &&& SPI_EVENT_IDLE ≠ 0 := fun hI => hnc ⟨hR, hI, hM⟩
      unfold spi_event_handler
      simp only [if_pos hR, if_neg hM, if_neg hI]
      refine ⟨fun h => spi_event_wm_txwm_mem P peri events h.1 h.2,
        fun h => spi_event_wm_rxwm_mem P peri events h.1 h.2,
        fun h => absurd ⟨h.2.1, h.2.2⟩ hM⟩
  · unfold spi_event_handler
    simp only [if_neg hR]
    refine ⟨fun h => spi_event_wm_txwm_mem P peri events h.1 h.2,
      fun h => spi_event_wm_rxwm_mem P peri events h.1 h.2,
      fun h => absurd h.1 hR⟩

/-- C2 witness: a busy slot mid-transaction (cursor 1 of 2 segments) with a
transmit-watermark callback installed, receiving `Ready | TxWatermark`: the
cursor advances to 2 and the transmit-watermark callback is recorded. -/
theorem spi_event_handler_spec_witness :
    mk_cb cb_kind.txwm
      { segments := some [{ mode := 2, len := 4 }, { mode := 1, len := 4 }],
        seglen := 2, txbuffer := some [7, 8], txlen := 2,
        rxbuffer := none, rxlen := 0 } ∈
      (spi_event_handler { txDepth := 8, rxDepth := 16 }
        { hw := { txqd := 0, rxfifo := [], active := false },
          state := spi_state_e.BUSY,
          txn := { segments := some [{ mode := 2, len := 4 },
                     { mode := 1, len := 4 }],
                   seglen := 2, txbuffer := some [7, 8], txlen := 2,
                   rxbuffer := none, rxlen := 0 },
          scnt := 1, wcnt := 2, rcnt := 0,
          callbacks := { done_cb := false, txwm_cb := true, rxwm_cb := false,
                         error_cb := false } } 24).2.2 ∧
    (spi_event_handler { txDepth := 8, rxDepth := 16 }
      { hw := { txqd := 0, rxfifo := [], active := false },
        state := spi_state_e.BUSY,
        txn := { segments := some [{ mode := 2, len := 4 },
                   { mode := 1, len := 4 }],
                 seglen := 2, txbuffer := some [7, 8], txlen := 2,
                 rxbuffer := none, rxlen := 0 },
        scnt := 1, wcnt := 2, rcnt := 0,
        callbacks := { done_cb := false, txwm_cb := true, rxwm_cb := false,
                       error_cb := false } } 24).1.scnt = 2 := by
  have h := spi_event_handler_spec { txDepth := 8, rxDepth := 16 }
    { hw := { txqd := 0, rxfifo := [], active := false },
      state := spi_state_e.BUSY,
      txn := { segments := some [{ mode := 2, len := 4 },
                 { mode := 1, len := 4 }],
               seglen := 2, txbuffer := some [7, 8], txlen := 2,
               rxbuffer := none, rxlen := 0 },
      scnt := 1, wcnt := 2, rcnt := 0,
      callbacks := { done_cb := false, txwm_cb := true, rxwm_cb := false,
                     error_cb := false } } 24 (by decide)
  refine ⟨h.1 ⟨by decide, rfl⟩, ?_⟩
  have h2 := (h.2.2 ⟨by decide, by decide, by decide⟩).1
  simpa using h2

/-- C2 counterexample: a busy slot whose transaction is complete (no segment
list left), with a transmit-watermark callback installed and pending TX data,
receiving `Ready | Idle | TxWatermark` (= 56): the completion branch returns
early, so no callback at all is recorded (the transmit-watermark callback is
skipped) and no FIFO word is written (the fill pass is skipped), contrary to
the claim that watermark bits are always handled in the same invocation. -/
theorem spi_event_handler_cex :
    (56 : Nat) &&& SPI_EVENT_TXWM ≠ 0 ∧
    (spi_event_handler { txDepth := 8, rxDepth := 16 }
      { hw := { txqd := 0, rxfifo := [], active := false },
        state := spi_state_e.BUSY,
        txn := { segments := none, seglen := 0, txbuffer := some [5, 6],
                 txlen := 2, rxbuffer := none, rxlen := 0 },
        scnt := 0, wcnt := 0, rcnt := 0,
        callbacks := { done_cb := false, txwm_cb := true, rxwm_cb := false,
                       error_cb := false } } 56).2.2 = [] ∧
    (∀ op ∈ (spi_event_handler { txDepth := 8, rxDepth := 16 }
      { hw := { txqd := 0, rxfifo := [], active := false },
        state := spi_state_e.BUSY,
        txn := { segments := none, seglen := 0, txbuffer := some [5, 6],
                 txlen := 2, rxbuffer := none, rxlen := 0 },
        scnt := 0, wcnt := 0, rcnt := 0,
        callbacks := { done_cb := false, txwm_cb := true, rxwm_cb := false,
                       error_cb := false } } 56).2.1,
      is_write_word op = false) := by
  decide

/-! ## Handle opening (C6) -/

theorem lor_and_self (x m : Nat) : (x ||| m) &&& m = m := by
  apply Nat.eq_of_testBit_eq
  intro i
  rw [Nat.testBit_land, Nat.testBit_lor]
  cases hx : x.testBit i <;> cases hm : m.testBit i <;> rfl

theorem lor_ne_zero_right (x m : Nat) (hm : m ≠ 0) : x ||| m ≠ 0 := by
  intro h0
  have h1 := lor_and_self x m
  rw [h0] at h1
  simp at h1
  exact hm h1.symm

theorem lor_ne_zero_left (x m : Nat) (hx : x ≠ 0) : x ||| m ≠ 0 := by
  intro h0
  have h1 := lor_and_self m x
  rw [Nat.lor_comm] at h1
  rw [h0] at h1
  simp at h1
  exact hx h1.symm

/-- C6 (amended): `spi_init` fails — returning the invalidated handle, with
the registry untouched and no hardware access — when the controller index is
out of range, and likewise when the chip-select id is out of range or the
requested frequency is *below the minimum achievable frequency*
`sysclock / 131072`; on success it enables the controller and its output,
unmasks all hardware error interrupts, marks the slot initialized and stores
the true achievable frequency — which does not exceed the request whenever
the untruncated divisor `(sys/req − 2)/2` fits in 16 bits. -/
theorem spi_init_spec (sys : Nat) (regs : spi_registry_t) (idx : Nat)
    (slave : spi_slave_t) :
    (SPI_IDX_INVALID idx = true →
      spi_init sys regs idx slave =
        ({ idx := UINT32_MAX, init := false, slave := zero_slave }, regs, [])) ∧
    ((SPI_CSID_INVALID slave.csid = true ∨ slave.freq < SPI_MIN_FREQ sys) →
      spi_init sys regs idx slave =
        ({ idx := UINT32_MAX, init := false, slave := zero_slave }, regs, [])) ∧
    (SPI_IDX_INVALID idx = false → SPI_CSID_INVALID slave.csid = false →
      ¬slave.freq < SPI_MIN_FREQ sys →
      spi_init sys regs idx slave =
        ({ idx := idx, init := true,
           slave := { slave with freq := spi_true_slave_freq sys slave.freq } },
         peri_set regs idx { peri_get regs idx with state := spi_state_e.INIT },
         [hal_op.set_enable true, hal_op.output_enable true,
          hal_op.set_errors_enabled SPI_ERROR_IRQALL true])) ∧
    (0 < slave.freq → sys < UINT32_LIMIT →
      (sys / slave.freq - 2) / 2 < UINT16_LIMIT →
      spi_true_slave_freq sys slave.freq ≤ slave.freq) := by
  refine ⟨?_, ?_, ?_, ?_⟩
  · intro h
    unfold spi_init
    simp only [h, if_true]
    rw [if_pos (lor_ne_zero_right _ _ (by decide : SPI_CODE_IDX_INVAL ≠ 0))]
  · intro h
    unfold spi_init spi_validate_slave
    have hval : ((if SPI_CSID_INVALID slave.csid then SPI_CODE_SLAVE_CSID_INVAL
          else 0) |||
        (if slave.freq < SPI_MIN_FREQ sys then SPI_CODE_SLAVE_FREQ_INVAL
          else 0)) ≠ 0 := by
      rcases h with h | h
      · rw [if_pos h]
        exact lor_ne_zero_left _ _ (by decide)
      · rw [if_pos h]
        exact lor_ne_zero_right _ _ (by decide)
    by_cases hi : SPI_IDX_INVALID idx = true
    · simp only [hi, if_true]
      rw [if_pos (lor_ne_zero_right _ _ (by decide : SPI_CODE_IDX_INVAL ≠ 0))]
    · simp only [hi, Bool.false_eq_true, if_false]
      rw [if_pos hval]
  · intro h1 h2 h3
    unfold spi_init spi_validate_slave
    simp [h1, h2, h3]
  · intro h1 h2 h3
    exact spi_true_slave_freq_le sys slave.freq h1 h2 h3

/-- C6 witness: a successful open on controller 0 at a 20 MHz system clock
for a 1 MHz slave: the handle comes back initialized and the stored true
frequency does not exceed the request. -/
theorem spi_init_spec_witness :
    (spi_init 20000000
      { flash := { hw := { txqd := 0, rxfifo := [], active := false },
                   state := spi_state_e.NONE, txn := empty_txn, scnt := 0,
                   wcnt := 0, rcnt := 0, callbacks := NULL_CALLBACKS },
        host := { hw := { txqd := 0, rxfifo := [], active := false },
                  state := spi_state_e.NONE, txn := empty_txn, scnt := 0,
                  wcnt := 0, rcnt := 0, callbacks := NULL_CALLBACKS },
        host2 := { hw := { txqd := 0, rxfifo := [], active := false },
                   state := spi_state_e.NONE, txn := empty_txn, scnt := 0,
                   wcnt := 0, rcnt := 0, callbacks := NULL_CALLBACKS } }
      0
      { csid := 0, freq := 1000000, data_mode := 0, csn_idle := 0,
        csn_lead := 0, csn_trail := 0, full_cycle := false }).1.init = true ∧
    spi_true_slave_freq 20000000 1000000 ≤ 1000000 := by
  have h := spi_init_spec 20000000
    { flash := { hw := { txqd := 0, rxfifo := [], active := false },
                 state := spi_state_e.NONE, txn := empty_txn, scnt := 0,
                 wcnt := 0, rcnt := 0, callbacks := NULL_CALLBACKS },
      host := { hw := { txqd := 0, rxfifo := [], active := false },
                state := spi_state_e.NONE, txn := empty_txn, scnt := 0,
                wcnt := 0, rcnt := 0, callbacks := NULL_CALLBACKS },
      host2 := { hw := { txqd := 0, rxfifo := [], active := false },
                 state := spi_state_e.NONE, txn := empty_txn, scnt := 0,
                 wcnt := 0, rcnt := 0, callbacks := NULL_CALLBACKS } }
    0
    { csid := 0, freq := 1000000, data_mode := 0, csn_idle := 0,
      csn_lead := 0, csn_trail := 0, full_cycle := false }
  refine ⟨?_, h.2.2.2 (by decide) (by decide) (by decide)⟩
  rw [h.2.2.1 (by decide) (by decide) (by decide)]

/-- C6 counterexample: (a) at a 20 MHz system clock, requesting 20 MHz —
strictly above half the clock — does *not* fail: the handle comes back
initialized (the code only rejects frequencies below `sys/131072`);
(b) at a 231072 Hz system clock, a validated 1 Hz request yields a stored
"true" frequency of 2 Hz, which lies above the request. -/
theorem spi_init_cex :
    (spi_init 20000000
      { flash := { hw := { txqd := 0, rxfifo := [], active := false },
                   state := spi_state_e.NONE, txn := empty_txn, scnt := 0,
                   wcnt := 0, rcnt := 0, callbacks := NULL_CALLBACKS },
        host := { hw := { txqd := 0, rxfifo := [], active := false },
                  state := spi_state_e.NONE, txn := empty_txn, scnt := 0,
                  wcnt := 0, rcnt := 0, callbacks := NULL_CALLBACKS },
        host2 := { hw := { txqd := 0, rxfifo := [], active := false },
                   state := spi_state_e.NONE, txn := empty_txn, scnt := 0,
                   wcnt := 0, rcnt := 0, callbacks := NULL_CALLBACKS } }
      0
      { csid := 0, freq := 20000000, data_mode := 0, csn_idle := 0,
        csn_lead := 0, csn_trail := 0, full_cycle := false }).1.init = true ∧
    20000000 / 2 < 20000000 ∧
    (spi_init 231072
      { flash := { hw := { txqd := 0, rxfifo := [], active := false },
                   state := spi_state_e.NONE, txn := empty_txn, scnt := 0,
                   wcnt := 0, rcnt := 0, callbacks := NULL_CALLBACKS },
        host := { hw := { txqd := 0, rxfifo := [], active := false },
                  state := spi_state_e.NONE, txn := empty_txn, scnt := 0,
                  wcnt := 0, rcnt := 0, callbacks := NULL_CALLBACKS },
        host2 := { hw := { txqd := 0, rxfifo := [], active := false },
                   state := spi_state_e.NONE, txn := empty_txn, scnt := 0,
                   wcnt := 0, rcnt := 0, callbacks := NULL_CALLBACKS } }
      0
      { csid := 0, freq := 1, data_mode := 0, csn_idle := 0,
        csn_lead := 0, csn_trail := 0, full_cycle := false }).1.init = true ∧
    (spi_init 231072
      { flash := { hw := { txqd := 0, rxfifo := [], active := false },
                   state := spi_state_e.NONE, txn := empty_txn, scnt := 0,
                   wcnt := 0, rcnt := 0, callbacks := NULL_CALLBACKS },
        host := { hw := { txqd := 0, rxfifo := [], active := false },
                  state := spi_state_e.NONE, txn := empty_txn, scnt := 0,
                  wcnt := 0, rcnt := 0, callbacks := NULL_CALLBACKS },
        host2 := { hw := { txqd := 0, rxfifo := [], active := false },
                   state := spi_state_e.NONE, txn := empty_txn, scnt := 0,
                   wcnt := 0, rcnt := 0, callbacks := NULL_CALLBACKS } }
      0
      { csid := 0, freq := 1, data_mode := 0, csn_idle := 0,
        csn_lead := 0, csn_trail := 0, full_cycle := false }).1.slave.freq = 2 := by
  decide

/-! ## Zero / over-maximum length requests (C8) -/

/-- C8 (amended): on a valid handle whose slot is not busy, a transfer with
length zero or above the hardware maximum returns a code containing
`TXN_LEN_INVAL`, is detected before `launch` (the registry — and hence every
slot field — is untouched), and writes no transfer-related register: the
only hardware operations that may occur are the CONFIGOPTS and CSID writes
of the slave-configuration step that precedes the length check. -/
theorem spi_len_invalid_spec (sys : Nat) (P : hw_params)
    (regs : spi_registry_t) (spi : spi_t) (buf buf2 : Option (List Nat))
    (len : Nat) (cbs : spi_callbacks_t)
    (hv : spi_check_valid spi = SPI_CODE_OK)
    (hnb : (peri_get regs spi.idx).state ≠ spi_state_e.BUSY)
    (hl : SPI_INVALID_LEN len = true) :
    ((spi_transmit sys P regs spi buf len).1 &&& SPI_CODE_TXN_LEN_INVAL ≠ 0 ∧
      (spi_transmit sys P regs spi buf len).2.1 = regs ∧
      (∀ op ∈ (spi_transmit sys P regs spi buf len).2.2,
        (∃ c w, op = hal_op.set_configopts c w) ∨ ∃ c, op = hal_op.set_csid c)) ∧
    ((spi_receive sys P regs spi buf len).1 &&& SPI_CODE_TXN_LEN_INVAL ≠ 0 ∧
      (spi_receive sys P regs spi buf len).2.1 = regs ∧
      (∀ op ∈ (spi_receive sys P regs spi buf len).2.2,
        (∃ c w, op = hal_op.set_configopts c w) ∨ ∃ c, op = hal_op.set_csid c)) ∧
    ((spi_transceive sys P regs spi buf buf2 len).1 &&& SPI_CODE_TXN_LEN_INVAL ≠ 0 ∧
      (spi_transceive sys P regs spi buf buf2 len).2.1 = regs ∧
      (∀ op ∈ (spi_transceive sys P regs spi buf buf2 len).2.2,
        (∃ c w, op = hal_op.set_configopts c w) ∨ ∃ c, op = hal_op.set_csid c)) ∧
    ((spi_transmit_nb sys P regs spi buf len cbs).1 &&& SPI_CODE_TXN_LEN_INVAL ≠ 0 ∧
      (spi_transmit_nb sys P regs spi buf len cbs).2.1 = regs ∧
      (∀ op ∈ (spi_transmit_nb sys P regs spi buf len cbs).2.2,
        (∃ c w, op = hal_op.set_configopts c w) ∨ ∃ c, op = hal_op.set_csid c)) ∧
    ((spi_receive_nb sys P regs spi buf len cbs).1 &&& SPI_CODE_TXN_LEN_INVAL ≠ 0 ∧
      (spi_receive_nb sys P regs spi buf len cbs).2.1 = regs ∧
      (∀ op ∈ (spi_receive_nb sys P regs spi buf len cbs).2.2,
        (∃ c w, op = hal_op.set_configopts c w) ∨ ∃ c, op = hal_op.set_csid c)) ∧
    ((spi_transceive_nb sys P regs spi buf buf2 len cbs).1 &&& SPI_CODE_TXN_LEN_INVAL ≠ 0 ∧
      (spi_transceive_nb sys P regs spi buf buf2 len cbs).2.1 = regs ∧
      (∀ op ∈ (spi_transceive_nb sys P regs spi buf buf2 len cbs).2.2,
        (∃ c w, op = hal_op.set_configopts c w) ∨ ∃ c, op = hal_op.set_csid c)) := by
  have hptr : ∀ op ∈ (spi_prepare_transfer sys regs spi).2,
      (∃ c w, op = hal_op.set_configopts c w) ∨ ∃ c, op = hal_op.set_csid c := by
    unfold spi_prepare_transfer spi_set_slave
    rw [hv]
    simp only [SPI_CODE_OK]
    by_cases ha : (peri_get regs spi.idx).hw.active <;>
      by_cases hc : spi.slave.csid < SPI_HOST_PARAM_NUM_C_S <;>
        simp [hnb, ha, hc, SPI_CODE_NOT_IDLE, SPI_CODE_SLAVE_INVAL]
  have hband : ((spi_prepare_transfer sys regs spi).1 ||| SPI_CODE_TXN_LEN_INVAL)
      &&& SPI_CODE_TXN_LEN_INVAL = SPI_CODE_TXN_LEN_INVAL := lor_and_self _ _
  have hbne : (spi_prepare_transfer sys regs spi).1 ||| SPI_CODE_TXN_LEN_INVAL ≠ 0 := by
    intro h0
    rw [h0] at hband
    exact absurd hband (by decide)
  have hfin : ((spi_prepare_transfer sys regs spi).1 |||
      SPI_CODE_TXN_LEN_INVAL) &&& SPI_CODE_TXN_LEN_INVAL ≠ 0 := by
    rw [hband]
    decide
  refine ⟨?_, ?_, ?_, ?_, ?_, ?_⟩
  · unfold spi_transmit
    simp only [hl, if_true]
    rw [if_pos hbne]
    exact ⟨hfin, rfl, hptr⟩
  · unfold spi_receive
    simp only [hl, if_true]
    rw [if_pos hbne]
    exact ⟨hfin, rfl, hptr⟩
  · unfold spi_transceive
    simp only [hl, if_true]
    rw [if_pos hbne]
    exact ⟨hfin, rfl, hptr⟩
  · unfold spi_transmit_nb
    simp only [hl, if_true]
    rw [if_pos hbne]
    exact ⟨hfin, rfl, hptr⟩
  · unfold spi_receive_nb
    simp only [hl, if_true]
    rw [if_pos hbne]
    exact ⟨hfin, rfl, hptr⟩
  · unfold spi_transceive_nb
    simp only [hl, if_true]
    rw [if_pos hbne]
    exact ⟨hfin, rfl, hptr⟩

/-- C8 witness: a zero-length transmit on a valid idle handle; applying the
specification shows the `TXN_LEN_INVAL` bit is returned with the registry
untouched. -/
theorem spi_len_invalid_spec_witness :
    (spi_transmit 20000000 { txDepth := 8, rxDepth := 16 }
      { flash := { hw := { txqd := 0, rxfifo := [], active := false },
                   state := spi_state_e.INIT, txn := empty_txn, scnt := 0,
                   wcnt := 0, rcnt := 0, callbacks := NULL_CALLBACKS },
        host := { hw := { txqd := 0, rxfifo := [], active := false },
                  state := spi_state_e.NONE, txn := empty_txn, scnt := 0,
                  wcnt := 0, rcnt := 0, callbacks := NULL_CALLBACKS },
        host2 := { hw := { txqd := 0, rxfifo := [], active := false },
                   state := spi_state_e.NONE, txn := empty_txn, scnt := 0,
                   wcnt := 0, rcnt := 0, callbacks := NULL_CALLBACKS } }
      { idx := 0, init := true,
        slave := { csid := 0, freq := 1000000, data_mode := 0, csn_idle := 0,
                   csn_lead := 0, csn_trail := 0, full_cycle := false } }
      (some [1]) 0).1 &&& SPI_CODE_TXN_LEN_INVAL ≠ 0 ∧
    (spi_transmit 20000000 { txDepth := 8, rxDepth := 16 }
      { flash := { hw := { txqd := 0, rxfifo := [], active := false },
                   state := spi_state_e.INIT, txn := empty_txn, scnt := 0,
                   wcnt := 0, rcnt := 0, callbacks := NULL_CALLBACKS },
        host := { hw := { txqd := 0, rxfifo := [], active := false },
                  state := spi_state_e.NONE, txn := empty_txn, scnt := 0,
                  wcnt := 0, rcnt := 0, callbacks := NULL_CALLBACKS },
        host2 := { hw := { txqd := 0, rxfifo := [], active := false },
                   state := spi_state_e.NONE, txn := empty_txn, scnt := 0,
                   wcnt := 0, rcnt := 0, callbacks := NULL_CALLBACKS } }
      { idx := 0, init := true,
        slave := { csid := 0, freq := 1000000, data_mode := 0, csn_idle := 0,
                   csn_lead := 0, csn_trail := 0, full_cycle := false } }
      (some [1]) 0).2.1 =
      { flash := { hw := { txqd := 0, rxfifo := [], active := false },
                   state := spi_state_e.INIT, txn := empty_txn, scnt := 0,
                   wcnt := 0, rcnt := 0, callbacks := NULL_CALLBACKS },
        host := { hw := { txqd := 0, rxfifo := [], active := false },
                  state := spi_state_e.NONE, txn := empty_txn, scnt := 0,
                  wcnt := 0, rcnt := 0, callbacks := NULL_CALLBACKS },
        host2 := { hw := { txqd := 0, rxfifo := [], active := false },
                   state := spi_state_e.NONE, txn := empty_txn, scnt := 0,
                   wcnt := 0, rcnt := 0, callbacks := NULL_CALLBACKS } } := by
  have h := spi_len_invalid_spec 20000000 { txDepth := 8, rxDepth := 16 }
    { flash := { hw := { txqd := 0, rxfifo := [], active := false },
                 state := spi_state_e.INIT, txn := empty_txn, scnt := 0,
                 wcnt := 0, rcnt := 0, callbacks := NULL_CALLBACKS },
      host := { hw := { txqd := 0, rxfifo := [], active := false },
                state := spi_state_e.NONE, txn := empty_txn, scnt := 0,
                wcnt := 0, rcnt := 0, callbacks := NULL_CALLBACKS },
      host2 := { hw := { txqd := 0, rxfifo := [], active := false },
                 state := spi_state_e.NONE, txn := empty_txn, scnt := 0,
                 wcnt := 0, rcnt := 0, callbacks := NULL_CALLBACKS } }
    { idx := 0, init := true,
      slave := { csid := 0, freq := 1000000, data_mode := 0, csn_idle := 0,
                 csn_lead := 0, csn_trail := 0, full_cycle := false } }
    (some [1]) none 0 NULL_CALLBACKS (by decide) (by decide) (by decide)
  exact ⟨h.1.1, h.1.2.1⟩

/-- C8 counterexample: the same zero-length transmit on a valid idle handle
returns `TXN_LEN_INVAL` — but its HAL trace is *not* empty: the slave
configuration step has already written the CONFIGOPTS and CSID registers
before the length check fired, contrary to the claim that no hardware
register is written. -/
theorem spi_len_invalid_cex :
    (spi_transmit 20000000 { txDepth := 8, rxDepth := 16 }
      { flash := { hw := { txqd := 0, rxfifo := [], active := false },
                   state := spi_state_e.INIT, txn := empty_txn, scnt := 0,
                   wcnt := 0, rcnt := 0, callbacks := NULL_CALLBACKS },
        host := { hw := { txqd := 0, rxfifo := [], active := false },
                  state := spi_state_e.NONE, txn := empty_txn, scnt := 0,
                  wcnt := 0, rcnt := 0, callbacks := NULL_CALLBACKS },
        host2 := { hw := { txqd := 0, rxfifo := [], active := false },
                   state := spi_state_e.NONE, txn := empty_txn, scnt := 0,
                   wcnt := 0, rcnt := 0, callbacks := NULL_CALLBACKS } }
      { idx := 0, init := true,
        slave := { csid := 0, freq := 1000000, data_mode := 0, csn_idle := 0,
                   csn_lead := 0, csn_trail := 0, full_cycle := false } }
      (some [1]) 0).1 = SPI_CODE_TXN_LEN_INVAL ∧
    (spi_transmit 20000000 { txDepth := 8, rxDepth := 16 }
      { flash := { hw := { txqd := 0, rxfifo := [], active := false },
                   state := spi_state_e.INIT, txn := empty_txn, scnt := 0,
                   wcnt := 0, rcnt := 0, callbacks := NULL_CALLBACKS },
        host := { hw := { txqd := 0, rxfifo := [], active := false },
                  state := spi_state_e.NONE, txn := empty_txn, scnt := 0,
                  wcnt := 0, rcnt := 0, callbacks := NULL_CALLBACKS },
        host2 := { hw := { txqd := 0, rxfifo := [], active := false },
                   state := spi_state_e.NONE, txn := empty_txn, scnt := 0,
                   wcnt := 0, rcnt := 0, callbacks := NULL_CALLBACKS } }
      { idx := 0, init := true,
        slave := { csid := 0, freq := 1000000, data_mode := 0, csn_idle := 0,
                   csn_lead := 0, csn_trail := 0, full_cycle := false } }
      (some [1]) 0).2.2 =
      [hal_op.set_configopts 0 9, hal_op.set_csid 0] ∧
    (spi_transmit 20000000 { txDepth := 8, rxDepth := 16 }
      { flash := { hw := { txqd := 0, rxfifo := [], active := false },
                   state := spi_state_e.INIT, txn := empty_txn, scnt := 0,
                   wcnt := 0, rcnt := 0, callbacks := NULL_CALLBACKS },
        host := { hw := { txqd := 0, rxfifo := [], active := false },
                  state := spi_state_e.NONE, txn := empty_txn, scnt := 0,
                  wcnt := 0, rcnt := 0, callbacks := NULL_CALLBACKS },
        host2 := { hw := { txqd := 0, rxfifo := [], active := false },
                   state := spi_state_e.NONE, txn := empty_txn, scnt := 0,
                   wcnt := 0, rcnt := 0, callbacks := NULL_CALLBACKS } }
      { idx := 0, init := true,
        slave := { csid := 0, freq := 1000000, data_mode := 0, csn_idle := 0,
                   csn_lead := 0, csn_trail := 0, full_cycle := false } }
      (some [1]) 0).2.2 ≠ [] := by
  decide

/-! ## Busy slots reject new transactions (C7) -/

/-- C7: on a valid, initialized handle whose slot is `BUSY`, each of the
eight transfer operations returns a code containing `IS_BUSY`, leaves the
registry unchanged and performs no hardware operation at all. -/
theorem spi_busy_rejects_spec (sys : Nat) (P : hw_params)
    (regs : spi_registry_t) (spi : spi_t) (buf buf2 : Option (List Nat))
    (len : Nat) (segments : Option (List spi_segment_t)) (segments_len : Nat)
    (cbs : spi_callbacks_t)
    (hv : spi_check_valid spi = SPI_CODE_OK)
    (hb : (peri_get regs spi.idx).state = spi_state_e.BUSY) :
    ((spi_transmit sys P regs spi buf len).1 &&& SPI_CODE_IS_BUSY ≠ 0 ∧
      (spi_transmit sys P regs spi buf len).2.1 = regs ∧
      (spi_transmit sys P regs spi buf len).2.2 = []) ∧
    ((spi_receive sys P regs spi buf len).1 &&& SPI_CODE_IS_BUSY ≠ 0 ∧
      (spi_receive sys P regs spi buf len).2.1 = regs ∧
      (spi_receive sys P regs spi buf len).2.2 = []) ∧
    ((spi_transceive sys P regs spi buf buf2 len).1 &&& SPI_CODE_IS_BUSY ≠ 0 ∧
      (spi_transceive sys P regs spi buf buf2 len).2.1 = regs ∧
      (spi_transceive sys P regs spi buf buf2 len).2.2 = []) ∧
    ((spi_execute sys P regs spi segments segments_len buf buf2).1 &&& SPI_CODE_IS_BUSY ≠ 0 ∧
      (spi_execute sys P regs spi segments segments_len buf buf2).2.1 = regs ∧
      (spi_execute sys P regs spi segments segments_len buf buf2).2.2 = []) ∧
    ((spi_transmit_nb sys P regs spi buf len cbs).1 &&& SPI_CODE_IS_BUSY ≠ 0 ∧
      (spi_transmit_nb sys P regs spi buf len cbs).2.1 = regs ∧
      (spi_transmit_nb sys P regs spi buf len cbs).2.2 = []) ∧
    ((spi_receive_nb sys P regs spi buf len cbs).1 &&& SPI_CODE_IS_BUSY ≠ 0 ∧
      (spi_receive_nb sys P regs spi buf len cbs).2.1 = regs ∧
      (spi_receive_nb sys P regs spi buf len cbs).2.2 = []) ∧
    ((spi_transceive_nb sys P regs spi buf buf2 len cbs).1 &&& SPI_CODE_IS_BUSY ≠ 0 ∧
      (spi_transceive_nb sys P regs spi buf buf2 len cbs).2.1 = regs ∧
      (spi_transceive_nb sys P regs spi buf buf2 len cbs).2.2 = []) ∧
    ((spi_execute_nb sys P regs spi segments segments_len buf buf2 cbs).1 &&& SPI_CODE_IS_BUSY ≠ 0 ∧
      (spi_execute_nb sys P regs spi segments segments_len buf buf2 cbs).2.1 = regs ∧
      (spi_execute_nb sys P regs spi segments segments_len buf buf2 cbs).2.2 = []) := by
  have hp : spi_prepare_transfer sys regs spi = (SPI_CODE_IS_BUSY, []) := by
    unfold spi_prepare_transfer
    rw [hv]
    simp [SPI_CODE_OK, hb]
  refine ⟨?_, ?_, ?_, ?_, ?_, ?_, ?_, ?_⟩
  · unfold spi_transmit
    rw [hp]
    cases hl : SPI_INVALID_LEN len <;>
      simp [hl, SPI_CODE_IS_BUSY, SPI_CODE_TXN_LEN_INVAL]
  · unfold spi_receive
    rw [hp]
    cases hl : SPI_INVALID_LEN len <;>
      simp [hl, SPI_CODE_IS_BUSY, SPI_CODE_TXN_LEN_INVAL]
  · unfold spi_transceive
    rw [hp]
    cases hl : SPI_INVALID_LEN len <;>
      simp [hl, SPI_CODE_IS_BUSY, SPI_CODE_TXN_LEN_INVAL]
  · unfold spi_execute
    rw [hp]
    simp [SPI_CODE_IS_BUSY]
  · unfold spi_transmit_nb
    rw [hp]
    cases hl : SPI_INVALID_LEN len <;>
      simp [hl, SPI_CODE_IS_BUSY, SPI_CODE_TXN_LEN_INVAL]
  · unfold spi_receive_nb
    rw [hp]
    cases hl : SPI_INVALID_LEN len <;>
      simp [hl, SPI_CODE_IS_BUSY, SPI_CODE_TXN_LEN_INVAL]
  · unfold spi_transceive_nb
    rw [hp]
    cases hl : SPI_INVALID_LEN len <;>
      simp [hl, SPI_CODE_IS_BUSY, SPI_CODE_TXN_LEN_INVAL]
  · unfold spi_execute_nb
    rw [hp]
    simp [SPI_CODE_IS_BUSY]

/-- C7 witness: a concrete busy flash slot and valid handle; `spi_transmit`
with length 4 fails with `IS_BUSY`, no registry change, empty trace. -/
theorem spi_busy_rejects_spec_witness :
    (spi_transmit 20000000 { txDepth := 8, rxDepth := 16 }
      { flash := { hw := { txqd := 0, rxfifo := [], active := false },
                   state := spi_state_e.BUSY, txn := empty_txn, scnt := 0,
                   wcnt := 0, rcnt := 0, callbacks := NULL_CALLBACKS },
        host := { hw := { txqd := 0, rxfifo := [], active := false },
                  state := spi_state_e.NONE, txn := empty_txn, scnt := 0,
                  wcnt := 0, rcnt := 0, callbacks := NULL_CALLBACKS },
        host2 := { hw := { txqd := 0, rxfifo := [], active := false },
                   state := spi_state_e.NONE, txn := empty_txn, scnt := 0,
                   wcnt := 0, rcnt := 0, callbacks := NULL_CALLBACKS } }
      { idx := 0, init := true,
        slave := { csid := 0, freq := 1000000, data_mode := 0, csn_idle := 0,
                   csn_lead := 0, csn_trail := 0, full_cycle := false } }
      (some [1, 2]) 4).1 &&& SPI_CODE_IS_BUSY ≠ 0 ∧
    (spi_transmit 20000000 { txDepth := 8, rxDepth := 16 }
      { flash := { hw := { txqd := 0, rxfifo := [], active := false },
                   state := spi_state_e.BUSY, txn := empty_txn, scnt := 0,
                   wcnt := 0, rcnt := 0, callbacks := NULL_CALLBACKS },
        host := { hw := { txqd := 0, rxfifo := [], active := false },
                  state := spi_state_e.NONE, txn := empty_txn, scnt := 0,
                  wcnt := 0, rcnt := 0, callbacks := NULL_CALLBACKS },
        host2 := { hw := { txqd := 0, rxfifo := [], active := false },
                   state := spi_state_e.NONE, txn := empty_txn, scnt := 0,
                   wcnt := 0, rcnt := 0, callbacks := NULL_CALLBACKS } }
      { idx := 0, init := true,
        slave := { csid := 0, freq := 1000000, data_mode := 0, csn_idle := 0,
                   csn_lead := 0, csn_trail := 0, full_cycle := false } }
      (some [1, 2]) 4).2.2 = [] := by
  have h := spi_busy_rejects_spec 20000000 { txDepth := 8, rxDepth := 16 }
    { flash := { hw := { txqd := 0, rxfifo := [], active := false },
                 state := spi_state_e.BUSY, txn := empty_txn, scnt := 0,
                 wcnt := 0, rcnt := 0, callbacks := NULL_CALLBACKS },
      host := { hw := { txqd := 0, rxfifo := [], active := false },
                state := spi_state_e.NONE, txn := empty_txn, scnt := 0,
                wcnt := 0, rcnt := 0, callbacks := NULL_CALLBACKS },
      host2 := { hw := { txqd := 0, rxfifo := [], active := false },
                 state := spi_state_e.NONE, txn := empty_txn, scnt := 0,
                 wcnt := 0, rcnt := 0, callbacks := NULL_CALLBACKS } }
    { idx := 0, init := true,
      slave := { csid := 0, freq := 1000000, data_mode := 0, csn_idle := 0,
                 csn_lead := 0, csn_trail := 0, full_cycle := false } }
    (some [1, 2]) none 4 none 0 NULL_CALLBACKS (by decide) (by decide)
  exact ⟨h.1.1, h.1.2.2⟩

end SpiSdk
